import Mathlib

/-!
# Authorization-code grant exchange (`pkg/op/token_code.go`)

A shallow embedding of the five functions of `token_code.go`
(`CodeExchange`, `ParseAccessTokenRequest`, `ValidateAccessTokenRequest`,
`AuthorizeCodeClient`, `AuthRequestByCode`) and theorems about them.

Conventions of the embedding.

* A Go result tuple `(a, b, err)` is a tuple of `Option`s: `none` is Go's `nil`.
  The functions of `token_code.go` return such tuples and are embedded with
  exactly the components the source returns on each path.
* The collaborators whose code is not in `token_code.go` (Storage, the
  assertion verifier, the secret verifier, the PKCE verifier, the token
  issuer, the request decoder) are parameters.  The spec gives their results
  as sums (`Client | NotFound`, `() | Error`), so they return `Except` or
  `Option GoError`.
* Collaborators may read and change state outside this file (the Storage):
  they are functions on an abstract state `σ`, and they are handed the
  exchanger or the Storage the source hands them.  Every embedded function
  returns a `Run`: its value, the state it leaves, and the list of calls and
  writes it made, in order.
* A method call on a `nil` interface value or a field read through a `nil`
  pointer panics in Go; a function in which that can happen returns a
  `Result`, `Completion` for one without a return value.
-/

namespace oidc

/-- The four protocol error codes of the taxonomy. -/
inductive ErrorType where
  | InvalidRequest
  | InvalidClient
  | InvalidGrant
  | UnauthorizedClient
  deriving DecidableEq

/-- A Go `error` value. `oidc` is an `*oidc.Error` (an error code, a description,
`""` when none was set, and the parent it wraps, if any); `external` is any
other error value a collaborator may produce (a storage driver error, say). -/
inductive GoError where
  | external (msg : String)
  | oidc (ErrorType : ErrorType) (Description : String) (Parent : Option GoError)

/-- Modelled from the spec: the constructor `oidc.ErrInvalidRequest()`, which is
not in `token_code.go`; an error of the taxonomy with no description and no parent. -/
def ErrInvalidRequest : GoError := .oidc .InvalidRequest "" none

/-- Modelled from the spec: the constructor `oidc.ErrInvalidClient()`. -/
def ErrInvalidClient : GoError := .oidc .InvalidClient "" none

/-- Modelled from the spec: the constructor `oidc.ErrInvalidGrant()`. -/
def ErrInvalidGrant : GoError := .oidc .InvalidGrant "" none

/-- Modelled from the spec: the constructor `oidc.ErrUnauthorizedClient()`. -/
def ErrUnauthorizedClient : GoError := .oidc .UnauthorizedClient "" none

/-- Modelled from the spec: the method `(*oidc.Error).WithDescription`, which
sets the description. It is a method of `*oidc.Error` only. -/
def GoError.WithDescription : GoError → String → GoError
  | .oidc t _ p, desc => .oidc t desc p
  | .external m, _ => .external m

/-- Modelled from the spec: the method `(*oidc.Error).WithParent`, which attaches
the underlying cause. It is a method of `*oidc.Error` only. -/
def GoError.WithParent : GoError → GoError → GoError
  | .oidc t d _, parent => .oidc t d (some parent)
  | .external m, _ => .external m

/-- The error code of an error, when it is one of the taxonomy. -/
def GoError.errorType : GoError → Option ErrorType
  | .oidc t _ _ => some t
  | .external _ => none

/-- The description of an error (`""` for an error outside the taxonomy). -/
def GoError.description : GoError → String
  | .oidc _ d _ => d
  | .external _ => ""

/-- The parent of an error. -/
def GoError.parent : GoError → Option GoError
  | .oidc _ _ p => p
  | .external _ => none

/-- The Go type `oidc.AuthMethod` is a string type. -/
abbrev AuthMethod := String

/-- The Go type `oidc.GrantType` is a string type. -/
abbrev GrantType := String

/-- Modelled from the spec: the constant `oidc.AuthMethodBasic`. -/
def AuthMethodBasic : AuthMethod := "client_secret_basic"

/-- Modelled from the spec: the constant `oidc.AuthMethodPost`. -/
def AuthMethodPost : AuthMethod := "client_secret_post"

/-- Modelled from the spec: the constant `oidc.AuthMethodNone`. -/
def AuthMethodNone : AuthMethod := "none"

/-- Modelled from the spec: the constant `oidc.AuthMethodPrivateKeyJWT`. -/
def AuthMethodPrivateKeyJWT : AuthMethod := "private_key_jwt"

/-- Modelled from the spec: the constant `oidc.GrantTypeCode`. -/
def GrantTypeCode : GrantType := "authorization_code"

/-- Modelled from the spec: the constant `oidc.ClientAssertionTypeJWTAssertion`,
the JWT-bearer assertion URN. -/
def ClientAssertionTypeJWTAssertion : String :=
  "urn:ietf:params:oauth:client-assertion-type:jwt-bearer"

/-- The record `oidc.AccessTokenRequest`; `new(oidc.AccessTokenRequest)` is the
record of empty strings. -/
structure AccessTokenRequest where
  Code : String := ""
  RedirectURI : String := ""
  ClientID : String := ""
  ClientSecret : String := ""
  CodeVerifier : String := ""
  ClientAssertion : String := ""
  ClientAssertionType : String := ""
  deriving DecidableEq

/-- The record `oidc.CodeChallenge` bound to a grant at issuance. -/
structure CodeChallenge where
  Challenge : String
  Method : String
  deriving DecidableEq

end oidc

namespace op

open oidc

/-- A non-nil value of the interface `op.Client`, by what its getters return. -/
structure Client where
  ID : String
  AuthMethod : AuthMethod
  GrantTypes : List GrantType
  deriving DecidableEq

/-- A non-nil value of the interface `op.AuthRequest` (the stored grant), by what
its getters return. -/
structure AuthRequest where
  ID : String
  ClientID : String
  RedirectURI : String
  CodeChallenge : Option CodeChallenge
  deriving DecidableEq

/-- The token response, with the fields the source lists at line 35. -/
structure TokenResponse where
  AccessToken : String
  TokenType : String
  RefreshToken : String
  ExpiresIn : Nat
  IDToken : String
  State : String
  deriving DecidableEq

/-- The inbound `*http.Request`, as far as the request parser reads it: the
headers and the key-value pairs of the form as they were sent. -/
structure HttpRequest where
  Header : List (String × String)
  Form : List (String × String)
  deriving DecidableEq

/-- The value of `exchanger.Decoder()`, handed on to the request parser. -/
structure Decoder where
  name : String
  deriving DecidableEq

/-- What a run calls and writes, in order: the collaborator calls, the call of
`ValidateAccessTokenRequest` from `CodeExchange`, and the writes to the
response writer (`RequestError`, `MarshalJSON`) and to the log. -/
inductive Event where
  | RequestError (err : GoError)
  | ValidateAccessTokenRequest (tokenReq : AccessTokenRequest)
  | AuthorizePrivateJWTKey (clientAssertion : String)
  | GetClientByClientID (clientID : String)
  | StorageAuthRequestByCode (code : String)
  | AuthorizeCodeChallenge (tokenReq : AccessTokenRequest) (challenge : Option CodeChallenge)
  | AuthorizeClientIDSecret (clientID : String) (clientSecret : String)
  | CreateTokenResponse (authReq : Option AuthRequest) (client : Option Client)
      (createAccessToken : Bool) (code : String) (refreshToken : String)
  | LogPrintf (resp : TokenResponse)
  | MarshalJSON (resp : TokenResponse)

/-- Whether an event is a call of `CreateTokenResponse`. -/
def Event.isCreateTokenResponse : Event → Bool
  | .CreateTokenResponse _ _ _ _ _ => true
  | _ => false

/-- Whether an event writes a token response to the client. -/
def Event.isMarshalJSON : Event → Bool
  | .MarshalJSON _ => true
  | _ => false

/-- Whether an event writes an error response to the client. -/
def Event.isRequestError : Event → Bool
  | .RequestError _ => true
  | _ => false

/-- Whether an event is a call of a Storage operation or of a collaborator that
is handed the Storage (the secret verifier). -/
def Event.isStorage : Event → Bool
  | .GetClientByClientID _ => true
  | .StorageAuthRequestByCode _ => true
  | .AuthorizeClientIDSecret _ _ => true
  | _ => false

/-- The outcome of running a function from state `σ`: its value, the state it
leaves and the events it produced, oldest first. -/
structure Run (σ : Type) (α : Type) where
  val : α
  st : σ
  trace : List Event

/-- A Go function with results either returns them or panics. -/
inductive Result (α : Type) where
  | ret (val : α)
  | panic (msg : String)

/-- A Go function without results either returns or panics. -/
inductive Completion where
  | returned
  | panicked (msg : String)
  deriving DecidableEq

/-- The message of the runtime panic on a nil dereference. -/
def nilDereference : String :=
  "runtime error: invalid memory address or nil pointer dereference"

/-- The interface `op.Storage`, as far as `token_code.go` calls it. -/
structure Storage (σ : Type) where
  GetClientByClientID : String → σ → Except GoError Client × σ
  AuthRequestByCode : String → σ → Except GoError AuthRequest × σ

/-- The interface `op.Exchanger`, as far as `token_code.go` calls it.
`JWTAuthorizationGrantExchanger` is whether the type assertion
`exchanger.(JWTAuthorizationGrantExchanger)` succeeds. -/
structure Exchanger (σ : Type) where
  Storage : Storage σ
  Decoder : Decoder
  AuthMethodPostSupported : Bool
  AuthMethodPrivateKeyJWTSupported : Bool
  JWTAuthorizationGrantExchanger : Bool

/-- The functions of package `op` that `token_code.go` calls and does not define,
with the arguments the source hands them (the context apart): the assertion
verifier gets the exchanger (line 77), the secret verifier the Storage (line 102),
the issuer the exchanger (line 28). -/
structure Package (σ : Type) where
  ParseAuthenticatedTokenRequest :
    HttpRequest → Decoder → AccessTokenRequest → Option GoError × AccessTokenRequest
  AuthorizePrivateJWTKey : String → Exchanger σ → σ → Except GoError Client × σ
  AuthorizeClientIDSecret : String → String → Storage σ → σ → Option GoError × σ
  AuthorizeCodeChallenge : AccessTokenRequest → Option CodeChallenge → Option GoError
  CreateTokenResponse :
    Option AuthRequest → Option Client → Exchanger σ → Bool → String → String → σ →
      Except GoError TokenResponse × σ

/-- Modelled from the spec: `ValidateGrantType`, which is not in `token_code.go`;
grant type authorization is a set-membership check on the grant types the client
was registered with. -/
def ValidateGrantType (client : Client) (grantType : GrantType) : Bool :=
  client.GrantTypes.contains grantType

variable {σ : Type}

/-- The function `ParseAccessTokenRequest` (lines 40-47). -/
def ParseAccessTokenRequest (pkg : Package σ) (r : HttpRequest) (decoder : Decoder) :
    Option AccessTokenRequest × Option GoError :=
  let request : AccessTokenRequest := {}
  match pkg.ParseAuthenticatedTokenRequest r decoder request with
  | (some err, _) => (none, some err)
  | (none, request) => (some request, none)

/-- The function `AuthRequestByCode` (lines 111-117). -/
def AuthRequestByCode (storage : Storage σ) (code : String) (s : σ) :
    Run σ (Option AuthRequest × Option GoError) :=
  match storage.AuthRequestByCode code s with
  | (.error err, s1) =>
    ⟨(none, some ((ErrInvalidGrant.WithDescription "invalid code").WithParent err)), s1,
      [.StorageAuthRequestByCode code]⟩
  | (.ok authReq, s1) => ⟨(some authReq, none), s1, [.StorageAuthRequestByCode code]⟩

/-- The function `AuthorizeCodeClient` (lines 71-108). On the `none` path the
source calls `request.GetCodeChallenge()` as soon as the lookup reported no
error, which panics on a nil `request`. -/
def AuthorizeCodeClient (pkg : Package σ) (tokenReq : AccessTokenRequest)
    (exchanger : Exchanger σ) (s : σ) :
    Run σ (Result (Option AuthRequest × Option Client × Option GoError)) :=
  if tokenReq.ClientAssertionType = ClientAssertionTypeJWTAssertion then
    if !exchanger.JWTAuthorizationGrantExchanger || !exchanger.AuthMethodPrivateKeyJWTSupported then
      ⟨.ret (none, none,
          some (ErrInvalidClient.WithDescription "auth_method private_key_jwt not supported")),
        s, []⟩
    else
      match pkg.AuthorizePrivateJWTKey tokenReq.ClientAssertion exchanger s with
      | (.error err, s1) =>
        ⟨.ret (none, none, some err), s1, [.AuthorizePrivateJWTKey tokenReq.ClientAssertion]⟩
      | (.ok client, s1) =>
        let q := AuthRequestByCode exchanger.Storage tokenReq.Code s1
        ⟨.ret (q.val.1, some client, q.val.2), q.st,
          .AuthorizePrivateJWTKey tokenReq.ClientAssertion :: q.trace⟩
  else
    match exchanger.Storage.GetClientByClientID tokenReq.ClientID s with
    | (.error err, s1) =>
      ⟨.ret (none, none, some (ErrInvalidClient.WithParent err)), s1,
        [.GetClientByClientID tokenReq.ClientID]⟩
    | (.ok client, s1) =>
      if client.AuthMethod = AuthMethodPrivateKeyJWT then
        ⟨.ret (none, none,
            some (ErrInvalidClient.WithDescription "private_key_jwt not allowed for this client")),
          s1, [.GetClientByClientID tokenReq.ClientID]⟩
      else if client.AuthMethod = AuthMethodNone then
        let q := AuthRequestByCode exchanger.Storage tokenReq.Code s1
        match q.val with
        | (_, some err) =>
          ⟨.ret (none, none, some err), q.st, .GetClientByClientID tokenReq.ClientID :: q.trace⟩
        | (none, none) =>
          ⟨.panic nilDereference, q.st, .GetClientByClientID tokenReq.ClientID :: q.trace⟩
        | (some request, none) =>
          ⟨.ret (some request, some client,
              pkg.AuthorizeCodeChallenge tokenReq request.CodeChallenge),
            q.st,
            .GetClientByClientID tokenReq.ClientID ::
              (q.trace ++ [.AuthorizeCodeChallenge tokenReq request.CodeChallenge])⟩
      else if client.AuthMethod = AuthMethodPost && !exchanger.AuthMethodPostSupported then
        ⟨.ret (none, none,
            some (ErrInvalidClient.WithDescription "auth_method post not supported")),
          s1, [.GetClientByClientID tokenReq.ClientID]⟩
      else
        match pkg.AuthorizeClientIDSecret tokenReq.ClientID tokenReq.ClientSecret
            exchanger.Storage s1 with
        | (some err, s2) =>
          ⟨.ret (none, none, some err), s2,
            [.GetClientByClientID tokenReq.ClientID,
              .AuthorizeClientIDSecret tokenReq.ClientID tokenReq.ClientSecret]⟩
        | (none, s2) =>
          let q := AuthRequestByCode exchanger.Storage tokenReq.Code s2
          ⟨.ret (q.val.1, some client, q.val.2), q.st,
            .GetClientByClientID tokenReq.ClientID ::
              .AuthorizeClientIDSecret tokenReq.ClientID tokenReq.ClientSecret :: q.trace⟩

/-- The function `ValidateAccessTokenRequest` (lines 52-67). The getters
`client.GetID()` and `authReq.GetClientID()` are called as soon as
`AuthorizeCodeClient` reported no error, which panics on a nil interface value. -/
def ValidateAccessTokenRequest (pkg : Package σ) (tokenReq : AccessTokenRequest)
    (exchanger : Exchanger σ) (s : σ) :
    Run σ (Result (Option AuthRequest × Option Client × Option GoError)) :=
  let p := AuthorizeCodeClient pkg tokenReq exchanger s
  match p.val with
  | .panic msg => ⟨.panic msg, p.st, p.trace⟩
  | .ret (_, _, some err) => ⟨.ret (none, none, some err), p.st, p.trace⟩
  | .ret (some authReq, some client, none) =>
    if client.ID ≠ authReq.ClientID then
      ⟨.ret (none, none, some ErrInvalidGrant), p.st, p.trace⟩
    else if !ValidateGrantType client GrantTypeCode then
      ⟨.ret (none, none,
          some (ErrUnauthorizedClient.WithDescription
            ("client missing grant type " ++ GrantTypeCode))),
        p.st, p.trace⟩
    else if tokenReq.RedirectURI ≠ authReq.RedirectURI then
      ⟨.ret (none, none,
          some (ErrInvalidGrant.WithDescription "redirect_uri does not correspond")),
        p.st, p.trace⟩
    else
      ⟨.ret (some authReq, some client, none), p.st, p.trace⟩
  | .ret (_, _, none) => ⟨.panic nilDereference, p.st, p.trace⟩

/-- The function `CodeExchange` (lines 14-37). After a parse error the source
writes the error and goes on to read `tokenReq.Code` (there is no `return` at
line 17), which panics on the nil `tokenReq`. -/
def CodeExchange (pkg : Package σ) (r : HttpRequest) (exchanger : Exchanger σ) (s : σ) :
    Run σ Completion :=
  let parsed := ParseAccessTokenRequest pkg r exchanger.Decoder
  let t0 : List Event :=
    match parsed.2 with
    | some err => [.RequestError err]
    | none => []
  match parsed.1 with
  | none => ⟨.panicked nilDereference, s, t0⟩
  | some tokenReq =>
    if tokenReq.Code = "" then
      ⟨.returned, s,
        t0 ++ [.RequestError (ErrInvalidRequest.WithDescription "code missing")]⟩
    else
      let v := ValidateAccessTokenRequest pkg tokenReq exchanger s
      let t1 := t0 ++ .ValidateAccessTokenRequest tokenReq :: v.trace
      match v.val with
      | .panic msg => ⟨.panicked msg, v.st, t1⟩
      | .ret (_, _, some err) => ⟨.returned, v.st, t1 ++ [.RequestError err]⟩
      | .ret (authReq, client, none) =>
        match pkg.CreateTokenResponse authReq client exchanger true tokenReq.Code "" v.st with
        | (.error err, s2) =>
          ⟨.returned, s2,
            t1 ++ [.CreateTokenResponse authReq client true tokenReq.Code "",
              .RequestError err]⟩
        | (.ok resp, s2) =>
          ⟨.returned, s2,
            t1 ++ [.CreateTokenResponse authReq client true tokenReq.Code "",
              .LogPrintf resp, .MarshalJSON resp]⟩

/-! ## A concrete deployment, for evaluating the functions -/

/-- The state of the example Storage: the authorization codes still redeemable. -/
abbrev DemoState := List String

/-- The registered clients of the example deployment. -/
def demoClients : List (String × Client) :=
  [("c1", ⟨"c1", AuthMethodNone, [GrantTypeCode]⟩),
   ("c2", ⟨"c2", AuthMethodPost, [GrantTypeCode]⟩),
   ("c3", ⟨"c3", AuthMethodPrivateKeyJWT, [GrantTypeCode]⟩),
   ("c4", ⟨"c4", AuthMethodBasic, [GrantTypeCode]⟩),
   ("c5", ⟨"c5", AuthMethodPost, ["refresh_token"]⟩)]

/-- The grants of the example deployment, by code. -/
def demoGrants : List (String × AuthRequest) :=
  [("code1", ⟨"ar1", "c1", "https://app/cb", some ⟨"S256(v)", "S256"⟩⟩),
   ("code2", ⟨"ar2", "c2", "https://a/cb", none⟩),
   ("code3", ⟨"ar3", "c3", "https://a/cb", none⟩),
   ("code4", ⟨"ar4", "c4", "https://a/cb", none⟩),
   ("code5", ⟨"ar5", "c5", "https://a/cb", none⟩)]

/-- The example Storage: a code is found while it is redeemable. -/
def demoStorage : Storage DemoState where
  GetClientByClientID := fun id s =>
    match demoClients.lookup id with
    | some c => (.ok c, s)
    | none => (.error (.external "client not found"), s)
  AuthRequestByCode := fun code s =>
    if s.contains code then
      match demoGrants.lookup code with
      | some a => (.ok a, s)
      | none => (.error (.external "grant not found"), s)
    else (.error (.external "grant not found"), s)

/-- The example exchanger: every authentication method is supported. -/
def demoExchanger : Exchanger DemoState where
  Storage := demoStorage
  Decoder := ⟨"form"⟩
  AuthMethodPostSupported := true
  AuthMethodPrivateKeyJWTSupported := true
  JWTAuthorizationGrantExchanger := true

/-- The value of a hexadecimal digit. -/
def demoHex (c : Char) : Option Nat :=
  if 48 ≤ c.toNat ∧ c.toNat ≤ 57 then some (c.toNat - 48)
  else if 97 ≤ c.toNat ∧ c.toNat ≤ 102 then some (c.toNat - 87)
  else if 65 ≤ c.toNat ∧ c.toNat ≤ 70 then some (c.toNat - 55)
  else none

/-- Form decoding of a key or a value: `+` is a blank and `%` is followed by two
hexadecimal digits; anything else after `%` is malformed. -/
def demoUnescape : List Char → Option (List Char)
  | [] => some []
  | c :: rest =>
    if c = '%' then
      match rest with
      | a :: b :: rest2 =>
        match demoHex a, demoHex b, demoUnescape rest2 with
        | some x, some y, some out => some (Char.ofNat (16 * x + y) :: out)
        | _, _, _ => none
      | _ => none
    else
      match demoUnescape rest with
      | some out => some ((if c = '+' then ' ' else c) :: out)
      | none => none

/-- Form decoding of the pairs of a form; `none` when a pair is malformed. -/
def demoParseForm : List (String × String) → Option (List (String × String))
  | [] => some []
  | (k, v) :: rest =>
    match demoUnescape k.data, demoUnescape v.data, demoParseForm rest with
    | some k1, some v1, some out => some ((String.mk k1, String.mk v1) :: out)
    | _, _, _ => none

/-- The example collaborators.
The request parser decodes the form and fails on a malformed escape, as
`r.ParseForm()` does; a form without a key leaves the field empty (the examples
send no basic-auth header).
The assertion verifier takes `"jwt-" ++ id` for an assertion signed by `id`, looks
that client up in the Storage of the exchanger it is handed, and refuses a client
that is not registered with `private_key_jwt`.
The secret of every client is `"secret"`; the PKCE verifier accepts the verifier
`"v"` for the challenge `"S256(v)"`; the issuer consumes the code. -/
def demoPackage : Package DemoState where
  ParseAuthenticatedTokenRequest := fun r _ request =>
    match demoParseForm r.Form with
    | none =>
      (some ((ErrInvalidRequest.WithDescription "error parsing form").WithParent
        (.external "invalid URL escape")), request)
    | some form =>
      (none,
        { Code := (form.lookup "code").getD "",
          RedirectURI := (form.lookup "redirect_uri").getD "",
          ClientID := (form.lookup "client_id").getD "",
          ClientSecret := (form.lookup "client_secret").getD "",
          CodeVerifier := (form.lookup "code_verifier").getD "",
          ClientAssertion := (form.lookup "client_assertion").getD "",
          ClientAssertionType := (form.lookup "client_assertion_type").getD "" })
  AuthorizePrivateJWTKey := fun assertion exchanger s =>
    match assertion.data with
    | 'j' :: 'w' :: 't' :: '-' :: issuer =>
      match exchanger.Storage.GetClientByClientID (String.mk issuer) s with
      | (.error err, s1) => (.error err, s1)
      | (.ok client, s1) =>
        if client.AuthMethod ≠ AuthMethodPrivateKeyJWT then (.error ErrInvalidClient, s1)
        else (.ok client, s1)
    | _ => (.error (ErrInvalidClient.WithDescription "invalid assertion"), s)
  AuthorizeClientIDSecret := fun _ secret _ s =>
    if secret = "secret" then (none, s)
    else (some (ErrInvalidClient.WithDescription "invalid client_id / client_secret"), s)
  AuthorizeCodeChallenge := fun tokenReq challenge =>
    if tokenReq.CodeVerifier = "" then
      some (ErrInvalidRequest.WithDescription "code_challenge required")
    else if challenge = some ⟨"S256(" ++ tokenReq.CodeVerifier ++ ")", "S256"⟩ then none
    else some (ErrInvalidGrant.WithDescription "invalid code challenge")
  CreateTokenResponse := fun _ _ _ _ code _ s =>
    (.ok ⟨"at-" ++ code, "Bearer", "", 299, "idt-" ++ code, ""⟩,
      s.filter (fun c => c != code))

/-- The codes redeemable at the start of the examples. -/
def demoInit : DemoState := ["code1", "code2", "code3", "code4", "code5"]

/-- The example collaborators with a secret verifier that reports the error of
its backend as it is. -/
def demoPackageDown : Package DemoState :=
  { demoPackage with
    AuthorizeClientIDSecret := fun _ _ _ s => (some (.external "storage unavailable"), s) }

/-! ## The contracts of the collaborators -/

/-- Modelled from the spec: the lifecycle of a grant, which the Storage and the
token issuer own and `token_code.go` does not implement: a grant is consumed by
the successful path of an exchange, and any lookup after consumption fails.
`Consumed` is the property of the state that says the grant of `code` is
consumed: a successful issuance for the code establishes it, the collaborators
called before the code lookup preserve it, and the Storage lookup of the code
fails under it. -/
structure GrantLifecycle (pkg : Package σ) (exchanger : Exchanger σ) (code : String)
    (Consumed : σ → Prop) : Prop where
  issued : ∀ (ra : Option AuthRequest) (rc : Option Client) (s0 s1 : σ)
    (resp : TokenResponse),
    pkg.CreateTokenResponse ra rc exchanger true code "" s0 = (.ok resp, s1) → Consumed s1
  lookupFails : ∀ s0, Consumed s0 →
    ∃ e s1, exchanger.Storage.AuthRequestByCode code s0 = (.error e, s1)
  clientLookup : ∀ id s0, Consumed s0 →
    Consumed (exchanger.Storage.GetClientByClientID id s0).2
  verifier : ∀ a s0, Consumed s0 → Consumed (pkg.AuthorizePrivateJWTKey a exchanger s0).2
  secret : ∀ id sec s0, Consumed s0 →
    Consumed (pkg.AuthorizeClientIDSecret id sec exchanger.Storage s0).2

/-- Modelled from the spec: a client and its credentials are set at registration
time, outside the exchange: what the client lookup, the assertion verifier and
the secret verifier answer does not depend on the state. -/
structure RegistrationFixed (pkg : Package σ) (exchanger : Exchanger σ) : Prop where
  clientLookup : ∀ id s0 s1,
    (exchanger.Storage.GetClientByClientID id s0).1 =
      (exchanger.Storage.GetClientByClientID id s1).1
  verifier : ∀ a s0 s1,
    (pkg.AuthorizePrivateJWTKey a exchanger s0).1 =
      (pkg.AuthorizePrivateJWTKey a exchanger s1).1
  secret : ∀ id sec s0 s1,
    (pkg.AuthorizeClientIDSecret id sec exchanger.Storage s0).1 =
      (pkg.AuthorizeClientIDSecret id sec exchanger.Storage s1).1

/-! ## General facts about the embedded functions -/

/-- `AuthRequestByCode` returns either an auth request and no error, or no auth
request and an error. -/
theorem AuthRequestByCode_val (storage : Storage σ) (code : String) (s : σ) :
    (∃ a, (AuthRequestByCode storage code s).val = (some a, none)) ∨
    (∃ e, (AuthRequestByCode storage code s).val = (none, some e)) := by
  unfold AuthRequestByCode
  split
  · exact Or.inr ⟨_, rfl⟩
  · exact Or.inl ⟨_, rfl⟩

/-- `AuthRequestByCode` makes exactly one call, the Storage lookup. -/
theorem AuthRequestByCode_trace (storage : Storage σ) (code : String) (s : σ) :
    (AuthRequestByCode storage code s).trace = [.StorageAuthRequestByCode code] := by
  unfold AuthRequestByCode
  split <;> rfl

/-- `AuthorizeCodeClient` never panics, and when it reports no error it returns
both an auth request and a client. -/
theorem AuthorizeCodeClient_val (pkg : Package σ) (tokenReq : AccessTokenRequest)
    (exchanger : Exchanger σ) (s : σ) :
    (∃ a c, (AuthorizeCodeClient pkg tokenReq exchanger s).val = .ret (some a, some c, none)) ∨
    (∃ ra rc e, (AuthorizeCodeClient pkg tokenReq exchanger s).val = .ret (ra, rc, some e)) := by
  unfold AuthorizeCodeClient
  split_ifs
  · exact Or.inr ⟨_, _, _, rfl⟩
  · split
    · exact Or.inr ⟨_, _, _, rfl⟩
    · rename_i client s1 _
      rcases AuthRequestByCode_val exchanger.Storage tokenReq.Code s1 with ⟨a, h⟩ | ⟨e, h⟩
      · exact Or.inl ⟨a, client, by simp [h]⟩
      · exact Or.inr ⟨none, some client, e, by simp [h]⟩
  · split
    · exact Or.inr ⟨_, _, _, rfl⟩
    · rename_i client s1 _
      split_ifs
      · exact Or.inr ⟨_, _, _, rfl⟩
      · rcases AuthRequestByCode_val exchanger.Storage tokenReq.Code s1 with ⟨a, h⟩ | ⟨e, h⟩
        · simp only [h]
          cases hc : pkg.AuthorizeCodeChallenge tokenReq a.CodeChallenge with
          | none => exact Or.inl ⟨a, client, rfl⟩
          | some e => exact Or.inr ⟨_, _, e, rfl⟩
        · simp only [h]
          exact Or.inr ⟨_, _, _, rfl⟩
      · exact Or.inr ⟨_, _, _, rfl⟩
      · split
        · exact Or.inr ⟨_, _, _, rfl⟩
        · rename_i s2 _
          rcases AuthRequestByCode_val exchanger.Storage tokenReq.Code s2 with ⟨a, h⟩ | ⟨e, h⟩
          · exact Or.inl ⟨a, client, by simp [h]⟩
          · exact Or.inr ⟨none, some client, e, by simp [h]⟩

/-- Every event of `AuthorizeCodeClient` is a collaborator call: it neither
issues a token nor writes to the client. -/
theorem AuthorizeCodeClient_trace (pkg : Package σ) (tokenReq : AccessTokenRequest)
    (exchanger : Exchanger σ) (s : σ) :
    ∀ ev ∈ (AuthorizeCodeClient pkg tokenReq exchanger s).trace,
      ev.isCreateTokenResponse = false ∧ ev.isMarshalJSON = false ∧
        ev.isRequestError = false := by
  intro ev hev
  unfold AuthorizeCodeClient at hev
  have key : ∀ code (s0 : σ), ev ∈ (AuthRequestByCode exchanger.Storage code s0).trace →
      ev.isCreateTokenResponse = false ∧ ev.isMarshalJSON = false ∧
        ev.isRequestError = false := by
    intro code s0 h
    rw [AuthRequestByCode_trace] at h
    simp only [List.mem_singleton] at h
    subst h
    exact ⟨rfl, rfl, rfl⟩
  split at hev
  · split at hev
    · simp at hev
    · split at hev
      · simp only [List.mem_singleton] at hev
        subst hev
        exact ⟨rfl, rfl, rfl⟩
      · simp only [List.mem_cons] at hev
        rcases hev with h | h
        · subst h
          exact ⟨rfl, rfl, rfl⟩
        · exact key _ _ h
  · split at hev
    · simp only [List.mem_singleton] at hev
      subst hev
      exact ⟨rfl, rfl, rfl⟩
    · split at hev
      · simp only [List.mem_singleton] at hev
        subst hev
        exact ⟨rfl, rfl, rfl⟩
      · split at hev
        · simp only [] at hev
          split at hev
          · simp only [List.mem_cons] at hev
            rcases hev with h | h
            · subst h
              exact ⟨rfl, rfl, rfl⟩
            · exact key _ _ h
          · simp only [List.mem_cons] at hev
            rcases hev with h | h
            · subst h
              exact ⟨rfl, rfl, rfl⟩
            · exact key _ _ h
          · simp only [List.mem_cons, List.mem_append, List.mem_singleton, List.not_mem_nil,
              or_false] at hev
            rcases hev with h | h | h
            · subst h
              exact ⟨rfl, rfl, rfl⟩
            · exact key _ _ h
            · subst h
              exact ⟨rfl, rfl, rfl⟩
        · split at hev
          · simp only [List.mem_singleton] at hev
            subst hev
            exact ⟨rfl, rfl, rfl⟩
          · split at hev
            · simp only [List.mem_cons, List.mem_singleton, List.not_mem_nil, or_false] at hev
              rcases hev with h | h
              · subst h
                exact ⟨rfl, rfl, rfl⟩
              · subst h
                exact ⟨rfl, rfl, rfl⟩
            · simp only [List.mem_cons] at hev
              rcases hev with h | h | h
              · subst h
                exact ⟨rfl, rfl, rfl⟩
              · subst h
                exact ⟨rfl, rfl, rfl⟩
              · exact key _ _ h

/-- `ValidateAccessTokenRequest` makes the calls of `AuthorizeCodeClient` and no other. -/
theorem ValidateAccessTokenRequest_trace (pkg : Package σ) (tokenReq : AccessTokenRequest)
    (exchanger : Exchanger σ) (s : σ) :
    (ValidateAccessTokenRequest pkg tokenReq exchanger s).trace =
      (AuthorizeCodeClient pkg tokenReq exchanger s).trace := by
  unfold ValidateAccessTokenRequest
  simp only []
  split
  · rfl
  · rfl
  · split_ifs <;> rfl
  · rfl

/-- `ValidateAccessTokenRequest` leaves the state `AuthorizeCodeClient` leaves. -/
theorem ValidateAccessTokenRequest_st (pkg : Package σ) (tokenReq : AccessTokenRequest)
    (exchanger : Exchanger σ) (s : σ) :
    (ValidateAccessTokenRequest pkg tokenReq exchanger s).st =
      (AuthorizeCodeClient pkg tokenReq exchanger s).st := by
  unfold ValidateAccessTokenRequest
  simp only []
  split
  · rfl
  · rfl
  · split_ifs <;> rfl
  · rfl

/-- When `AuthorizeCodeClient` reports an error, `ValidateAccessTokenRequest`
returns that error with a nil auth request and a nil client. -/
theorem ValidateAccessTokenRequest_of_err (pkg : Package σ) (tokenReq : AccessTokenRequest)
    (exchanger : Exchanger σ) (s : σ) (ra : Option AuthRequest) (rc : Option Client)
    (e : GoError)
    (h : (AuthorizeCodeClient pkg tokenReq exchanger s).val = .ret (ra, rc, some e)) :
    (ValidateAccessTokenRequest pkg tokenReq exchanger s).val = .ret (none, none, some e) := by
  unfold ValidateAccessTokenRequest
  simp only [h]

/-- When `AuthorizeCodeClient` succeeds, `ValidateAccessTokenRequest` runs the
three checks in the order client id, grant type, redirect URI. -/
theorem ValidateAccessTokenRequest_of_ok (pkg : Package σ) (tokenReq : AccessTokenRequest)
    (exchanger : Exchanger σ) (s : σ) (a : AuthRequest) (c : Client)
    (h : (AuthorizeCodeClient pkg tokenReq exchanger s).val = .ret (some a, some c, none)) :
    (ValidateAccessTokenRequest pkg tokenReq exchanger s).val =
      if c.ID ≠ a.ClientID then .ret (none, none, some ErrInvalidGrant)
      else if ValidateGrantType c GrantTypeCode = false then
        .ret (none, none,
          some (ErrUnauthorizedClient.WithDescription
            "client missing grant type authorization_code"))
      else if tokenReq.RedirectURI ≠ a.RedirectURI then
        .ret (none, none,
          some (ErrInvalidGrant.WithDescription "redirect_uri does not correspond"))
      else .ret (some a, some c, none) := by
  have hdesc : "client missing grant type " ++ GrantTypeCode =
      "client missing grant type authorization_code" := by decide
  unfold ValidateAccessTokenRequest
  simp only [h, hdesc]
  split_ifs <;> simp_all

/-- `ValidateAccessTokenRequest` never panics: it returns either an auth request and
a client and no error, or an error with a nil auth request and a nil client. -/
theorem ValidateAccessTokenRequest_val (pkg : Package σ) (tokenReq : AccessTokenRequest)
    (exchanger : Exchanger σ) (s : σ) :
    (∃ a c, (ValidateAccessTokenRequest pkg tokenReq exchanger s).val =
        .ret (some a, some c, none)) ∨
    (∃ e, (ValidateAccessTokenRequest pkg tokenReq exchanger s).val =
        .ret (none, none, some e)) := by
  rcases AuthorizeCodeClient_val pkg tokenReq exchanger s with ⟨a, c, h⟩ | ⟨xa, xc, e, h⟩
  · rw [ValidateAccessTokenRequest_of_ok pkg tokenReq exchanger s a c h]
    split_ifs
    · exact Or.inr ⟨_, rfl⟩
    · exact Or.inr ⟨_, rfl⟩
    · exact Or.inr ⟨_, rfl⟩
    · exact Or.inl ⟨a, c, rfl⟩
  · exact Or.inr ⟨e, ValidateAccessTokenRequest_of_err pkg tokenReq exchanger s xa xc e h⟩

/-- `ParseAccessTokenRequest` returns either a request and no error, or no
request and an error. -/
theorem ParseAccessTokenRequest_val (pkg : Package σ) (r : HttpRequest) (decoder : Decoder) :
    (∃ tokenReq, ParseAccessTokenRequest pkg r decoder = (some tokenReq, none)) ∨
    (∃ err, ParseAccessTokenRequest pkg r decoder = (none, some err)) := by
  unfold ParseAccessTokenRequest
  simp only []
  split
  · exact Or.inr ⟨_, rfl⟩
  · exact Or.inl ⟨_, rfl⟩

/-- `CodeExchange` after a parse error: the error is written, then the read of
`tokenReq.Code` panics. -/
theorem CodeExchange_of_parse_error (pkg : Package σ) (r : HttpRequest)
    (exchanger : Exchanger σ) (s : σ) (err : GoError)
    (hp : ParseAccessTokenRequest pkg r exchanger.Decoder = (none, some err)) :
    CodeExchange pkg r exchanger s = ⟨.panicked nilDereference, s, [.RequestError err]⟩ := by
  unfold CodeExchange
  simp only [hp]

/-- `CodeExchange` of a request without a code. -/
theorem CodeExchange_of_empty_code (pkg : Package σ) (r : HttpRequest)
    (exchanger : Exchanger σ) (s : σ) (tokenReq : AccessTokenRequest)
    (hp : ParseAccessTokenRequest pkg r exchanger.Decoder = (some tokenReq, none))
    (hcode : tokenReq.Code = "") :
    CodeExchange pkg r exchanger s =
      ⟨.returned, s, [.RequestError (.oidc .InvalidRequest "code missing" none)]⟩ := by
  unfold CodeExchange
  simp only [hp, hcode, if_true, List.nil_append]
  rfl

/-- `CodeExchange` when validation fails: the error is written and nothing is issued. -/
theorem CodeExchange_of_validate_error (pkg : Package σ) (r : HttpRequest)
    (exchanger : Exchanger σ) (s : σ) (tokenReq : AccessTokenRequest)
    (ra : Option AuthRequest) (rc : Option Client) (err : GoError)
    (hp : ParseAccessTokenRequest pkg r exchanger.Decoder = (some tokenReq, none))
    (hcode : tokenReq.Code ≠ "")
    (hv : (ValidateAccessTokenRequest pkg tokenReq exchanger s).val =
      .ret (ra, rc, some err)) :
    CodeExchange pkg r exchanger s =
      ⟨.returned, (ValidateAccessTokenRequest pkg tokenReq exchanger s).st,
        .ValidateAccessTokenRequest tokenReq ::
          ((ValidateAccessTokenRequest pkg tokenReq exchanger s).trace ++
            [.RequestError err])⟩ := by
  unfold CodeExchange
  simp only [hp, hcode, if_false, hv, List.nil_append, List.cons_append]

/-- `CodeExchange` when validation succeeds and the issuer fails. -/
theorem CodeExchange_of_issue_error (pkg : Package σ) (r : HttpRequest)
    (exchanger : Exchanger σ) (s s2 : σ) (tokenReq : AccessTokenRequest)
    (ra : Option AuthRequest) (rc : Option Client) (err : GoError)
    (hp : ParseAccessTokenRequest pkg r exchanger.Decoder = (some tokenReq, none))
    (hcode : tokenReq.Code ≠ "")
    (hv : (ValidateAccessTokenRequest pkg tokenReq exchanger s).val = .ret (ra, rc, none))
    (hc : pkg.CreateTokenResponse ra rc exchanger true tokenReq.Code ""
      (ValidateAccessTokenRequest pkg tokenReq exchanger s).st = (.error err, s2)) :
    CodeExchange pkg r exchanger s =
      ⟨.returned, s2,
        .ValidateAccessTokenRequest tokenReq ::
          ((ValidateAccessTokenRequest pkg tokenReq exchanger s).trace ++
            [.CreateTokenResponse ra rc true tokenReq.Code "", .RequestError err])⟩ := by
  unfold CodeExchange
  simp only [hp, hcode, if_false, hv, hc, List.nil_append, List.cons_append]

/-- `CodeExchange` when validation succeeds and the issuer succeeds. -/
theorem CodeExchange_of_issue_ok (pkg : Package σ) (r : HttpRequest)
    (exchanger : Exchanger σ) (s s2 : σ) (tokenReq : AccessTokenRequest)
    (ra : Option AuthRequest) (rc : Option Client) (resp : TokenResponse)
    (hp : ParseAccessTokenRequest pkg r exchanger.Decoder = (some tokenReq, none))
    (hcode : tokenReq.Code ≠ "")
    (hv : (ValidateAccessTokenRequest pkg tokenReq exchanger s).val = .ret (ra, rc, none))
    (hc : pkg.CreateTokenResponse ra rc exchanger true tokenReq.Code ""
      (ValidateAccessTokenRequest pkg tokenReq exchanger s).st = (.ok resp, s2)) :
    CodeExchange pkg r exchanger s =
      ⟨.returned, s2,
        .ValidateAccessTokenRequest tokenReq ::
          ((ValidateAccessTokenRequest pkg tokenReq exchanger s).trace ++
            [.CreateTokenResponse ra rc true tokenReq.Code "", .LogPrintf resp,
              .MarshalJSON resp])⟩ := by
  unfold CodeExchange
  simp only [hp, hcode, if_false, hv, hc, List.nil_append, List.cons_append]

/-- No event of `ValidateAccessTokenRequest` is a call of `CreateTokenResponse`. -/
theorem ValidateAccessTokenRequest_filter_issue (pkg : Package σ)
    (tokenReq : AccessTokenRequest) (exchanger : Exchanger σ) (s : σ) :
    (ValidateAccessTokenRequest pkg tokenReq exchanger s).trace.filter
      Event.isCreateTokenResponse = [] := by
  rw [List.filter_eq_nil_iff]
  intro ev hev
  rw [ValidateAccessTokenRequest_trace] at hev
  simp [(AuthorizeCodeClient_trace pkg tokenReq exchanger s ev hev).1]

/-- No event of `ValidateAccessTokenRequest` writes a token response. -/
theorem ValidateAccessTokenRequest_filter_write (pkg : Package σ)
    (tokenReq : AccessTokenRequest) (exchanger : Exchanger σ) (s : σ) :
    (ValidateAccessTokenRequest pkg tokenReq exchanger s).trace.filter
      Event.isMarshalJSON = [] := by
  rw [List.filter_eq_nil_iff]
  intro ev hev
  rw [ValidateAccessTokenRequest_trace] at hev
  simp [(AuthorizeCodeClient_trace pkg tokenReq exchanger s ev hev).2.1]

/-- A call of `CreateTokenResponse` is not an event of `ValidateAccessTokenRequest`. -/
theorem ValidateAccessTokenRequest_not_mem_issue (pkg : Package σ)
    (tokenReq : AccessTokenRequest) (exchanger : Exchanger σ) (s : σ)
    (ra : Option AuthRequest) (rc : Option Client) (b : Bool) (code rt : String) :
    Event.CreateTokenResponse ra rc b code rt ∉
      (ValidateAccessTokenRequest pkg tokenReq exchanger s).trace := by
  intro hev
  rw [ValidateAccessTokenRequest_trace] at hev
  have h := (AuthorizeCodeClient_trace pkg tokenReq exchanger s _ hev).1
  simp [Event.isCreateTokenResponse] at h

/-- A write of a token response is not an event of `ValidateAccessTokenRequest`. -/
theorem ValidateAccessTokenRequest_not_mem_write (pkg : Package σ)
    (tokenReq : AccessTokenRequest) (exchanger : Exchanger σ) (s : σ)
    (resp : TokenResponse) :
    Event.MarshalJSON resp ∉ (ValidateAccessTokenRequest pkg tokenReq exchanger s).trace := by
  intro hev
  rw [ValidateAccessTokenRequest_trace] at hev
  have h := (AuthorizeCodeClient_trace pkg tokenReq exchanger s _ hev).2.1
  simp [Event.isMarshalJSON] at h

/-- An error of `AuthRequestByCode` is `InvalidGrant` described "invalid code"
wrapping an error of the Storage lookup. -/
theorem AuthRequestByCode_error_origin (storage : Storage σ) (code : String) (s : σ)
    (ra : Option AuthRequest) (e : GoError)
    (h : (AuthRequestByCode storage code s).val = (ra, some e)) :
    ∃ e0 s1, storage.AuthRequestByCode code s = (.error e0, s1) ∧
      e = .oidc .InvalidGrant "invalid code" (some e0) := by
  unfold AuthRequestByCode at h
  split at h
  · rename_i err s1 heq
    simp only [Prod.mk.injEq, Option.some.injEq] at h
    exact ⟨err, s1, heq, h.2.symm⟩
  · simp at h

/-- Where an error of `AuthorizeCodeClient` comes from: it is one of three errors
created in the function, or it wraps the error of a Storage lookup, or it is the
error of the assertion verifier, of the secret verifier or of the PKCE verifier
as it was returned. -/
theorem AuthorizeCodeClient_error_origin (pkg : Package σ) (tokenReq : AccessTokenRequest)
    (exchanger : Exchanger σ) (s : σ) (ra : Option AuthRequest) (rc : Option Client)
    (e : GoError)
    (h : (AuthorizeCodeClient pkg tokenReq exchanger s).val = .ret (ra, rc, some e)) :
    e = .oidc .InvalidClient "auth_method private_key_jwt not supported" none ∨
    e = .oidc .InvalidClient "private_key_jwt not allowed for this client" none ∨
    e = .oidc .InvalidClient "auth_method post not supported" none ∨
    (∃ e0 s0 s1, exchanger.Storage.GetClientByClientID tokenReq.ClientID s0 = (.error e0, s1) ∧
      e = .oidc .InvalidClient "" (some e0)) ∨
    (∃ e0 s0 s1, exchanger.Storage.AuthRequestByCode tokenReq.Code s0 = (.error e0, s1) ∧
      e = .oidc .InvalidGrant "invalid code" (some e0)) ∨
    (∃ s0 s1, pkg.AuthorizePrivateJWTKey tokenReq.ClientAssertion exchanger s0 = (.error e, s1)) ∨
    (∃ s0 s1, pkg.AuthorizeClientIDSecret tokenReq.ClientID tokenReq.ClientSecret exchanger.Storage s0 =
      (some e, s1)) ∨
    (∃ challenge, pkg.AuthorizeCodeChallenge tokenReq challenge = some e) := by
  unfold AuthorizeCodeClient at h
  split at h
  · split at h
    · simp only [Result.ret.injEq, Prod.mk.injEq, Option.some.injEq] at h
      exact Or.inl h.2.2.symm
    · split at h
      · rename_i err s1 heq
        simp only [Result.ret.injEq, Prod.mk.injEq, Option.some.injEq] at h
        obtain ⟨-, -, rfl⟩ := h
        exact Or.inr (Or.inr (Or.inr (Or.inr (Or.inr (Or.inl ⟨s, s1, heq⟩)))))
      · rename_i client s1 heq
        simp only [Result.ret.injEq, Prod.mk.injEq] at h
        obtain ⟨e0, s2, h1, h2⟩ :=
          AuthRequestByCode_error_origin exchanger.Storage tokenReq.Code s1
            (AuthRequestByCode exchanger.Storage tokenReq.Code s1).val.1 e
            (Prod.ext rfl h.2.2)
        exact Or.inr (Or.inr (Or.inr (Or.inr (Or.inl ⟨e0, s1, s2, h1, h2⟩))))
  · split at h
    · rename_i err s1 heq
      simp only [Result.ret.injEq, Prod.mk.injEq, Option.some.injEq] at h
      exact Or.inr (Or.inr (Or.inr (Or.inl ⟨err, s, s1, heq, h.2.2.symm⟩)))
    · rename_i client s1 heq
      split at h
      · simp only [Result.ret.injEq, Prod.mk.injEq, Option.some.injEq] at h
        exact Or.inr (Or.inl h.2.2.symm)
      · split at h
        · simp only [] at h
          split at h
          · rename_i x err hq
            simp only [Result.ret.injEq, Prod.mk.injEq, Option.some.injEq] at h
            obtain ⟨-, -, rfl⟩ := h
            obtain ⟨e0, s2, h1, h2⟩ :=
              AuthRequestByCode_error_origin exchanger.Storage tokenReq.Code s1 _ _ hq
            exact Or.inr (Or.inr (Or.inr (Or.inr (Or.inl ⟨e0, s1, s2, h1, h2⟩))))
          · simp at h
          · rename_i request hq
            simp only [Result.ret.injEq, Prod.mk.injEq] at h
            exact Or.inr (Or.inr (Or.inr (Or.inr (Or.inr (Or.inr (Or.inr
              ⟨request.CodeChallenge, h.2.2⟩))))))
        · split at h
          · simp only [Result.ret.injEq, Prod.mk.injEq, Option.some.injEq] at h
            exact Or.inr (Or.inr (Or.inl h.2.2.symm))
          · split at h
            · rename_i err s2 hs
              simp only [Result.ret.injEq, Prod.mk.injEq, Option.some.injEq] at h
              obtain ⟨-, -, rfl⟩ := h
              exact Or.inr (Or.inr (Or.inr (Or.inr (Or.inr (Or.inr (Or.inl ⟨s1, s2, hs⟩))))))
            · rename_i s2 hs
              simp only [Result.ret.injEq, Prod.mk.injEq] at h
              obtain ⟨e0, s3, h1, h2⟩ :=
                AuthRequestByCode_error_origin exchanger.Storage tokenReq.Code s2
                  (AuthRequestByCode exchanger.Storage tokenReq.Code s2).val.1 e
                  (Prod.ext rfl h.2.2)
              exact Or.inr (Or.inr (Or.inr (Or.inr (Or.inl ⟨e0, s2, s3, h1, h2⟩))))

/-- In a state in which the Storage lookup of the code fails, `AuthRequestByCode`
returns `InvalidGrant` described "invalid code". -/
theorem AuthRequestByCode_of_lookup_error (storage : Storage σ) (code : String) (s : σ)
    (h : ∃ e s1, storage.AuthRequestByCode code s = (.error e, s1)) :
    ∃ e, (AuthRequestByCode storage code s).val =
      (none, some (.oidc .InvalidGrant "invalid code" (some e))) := by
  obtain ⟨e, s1, he⟩ := h
  refine ⟨e, ?_⟩
  unfold AuthRequestByCode
  simp only [he]
  rfl

/-- When the code is consumed, a property of the state that the collaborators
called before the code lookup preserve and under which the Storage lookup of the
code fails, `AuthorizeCodeClient` fails, and it fails with `InvalidGrant`
described "invalid code" whenever it gets as far as the code lookup. -/
theorem AuthorizeCodeClient_of_consumed (pkg : Package σ) (tokenReq : AccessTokenRequest)
    (exchanger : Exchanger σ) (Consumed : σ → Prop)
    (hlookup : ∀ s0, Consumed s0 →
      ∃ e s1, exchanger.Storage.AuthRequestByCode tokenReq.Code s0 = (.error e, s1))
    (hclient : ∀ id s0, Consumed s0 → Consumed (exchanger.Storage.GetClientByClientID id s0).2)
    (hjwt : ∀ a s0, Consumed s0 → Consumed (pkg.AuthorizePrivateJWTKey a exchanger s0).2)
    (hsecret : ∀ id sec s0, Consumed s0 → Consumed (pkg.AuthorizeClientIDSecret id sec exchanger.Storage s0).2)
    (s : σ) (hs : Consumed s) :
    ∃ ra rc err,
      (AuthorizeCodeClient pkg tokenReq exchanger s).val = .ret (ra, rc, some err) ∧
        (Event.StorageAuthRequestByCode tokenReq.Code ∈
            (AuthorizeCodeClient pkg tokenReq exchanger s).trace →
          ∃ e, err = .oidc .InvalidGrant "invalid code" (some e)) := by
  have key : ∀ s0, Consumed s0 →
      ∃ e, (AuthRequestByCode exchanger.Storage tokenReq.Code s0).val =
        (none, some (.oidc .InvalidGrant "invalid code" (some e))) := fun s0 h0 =>
    AuthRequestByCode_of_lookup_error exchanger.Storage tokenReq.Code s0 (hlookup s0 h0)
  unfold AuthorizeCodeClient
  split
  · split
    · exact ⟨_, _, _, rfl, fun h => by simp at h⟩
    · split
      · exact ⟨_, _, _, rfl, fun h => by simp at h⟩
      · rename_i client s1 heq
        have h1 : Consumed s1 := by
          have := hjwt tokenReq.ClientAssertion s hs
          rwa [heq] at this
        obtain ⟨e, he⟩ := key s1 h1
        refine ⟨none, some client, _, ?_, fun _ => ⟨e, rfl⟩⟩
        simp only [he]
  · split
    · exact ⟨_, _, _, rfl, fun h => by simp at h⟩
    · rename_i client s1 heq
      have h1 : Consumed s1 := by
        have := hclient tokenReq.ClientID s hs
        rwa [heq] at this
      split
      · exact ⟨_, _, _, rfl, fun h => by simp at h⟩
      · split
        · obtain ⟨e, he⟩ := key s1 h1
          refine ⟨none, none, _, ?_, fun _ => ⟨e, rfl⟩⟩
          simp only [he]
        · split
          · exact ⟨_, _, _, rfl, fun h => by simp at h⟩
          · split
            · exact ⟨_, _, _, rfl, fun h => by simp at h⟩
            · rename_i s2 hsec
              have h2 : Consumed s2 := by
                have := hsecret tokenReq.ClientID tokenReq.ClientSecret s1 h1
                rwa [hsec] at this
              obtain ⟨e, he⟩ := key s2 h2
              refine ⟨none, some client, _, ?_, fun _ => ⟨e, rfl⟩⟩
              simp only [he]

/-- When `ValidateAccessTokenRequest` succeeds, `AuthorizeCodeClient` succeeded
with the same auth request and client. -/
theorem AuthorizeCodeClient_of_validated (pkg : Package σ) (tokenReq : AccessTokenRequest)
    (exchanger : Exchanger σ) (s : σ) (a : AuthRequest) (c : Client)
    (h : (ValidateAccessTokenRequest pkg tokenReq exchanger s).val =
      .ret (some a, some c, none)) :
    (AuthorizeCodeClient pkg tokenReq exchanger s).val = .ret (some a, some c, none) := by
  rcases AuthorizeCodeClient_val pkg tokenReq exchanger s with ⟨a1, c1, hv⟩ | ⟨xa, xc, e, hv⟩
  · rw [ValidateAccessTokenRequest_of_ok pkg tokenReq exchanger s a1 c1 hv] at h
    split_ifs at h
    · simp at h
    · simp at h
    · simp at h
    · simp only [Result.ret.injEq, Prod.mk.injEq, Option.some.injEq, and_true] at h
      rw [hv, h.1, h.2]
  · rw [ValidateAccessTokenRequest_of_err pkg tokenReq exchanger s xa xc e hv] at h
    simp at h

/-- When `CodeExchange` wrote a token response, the request had a code, validation
succeeded, and the state `CodeExchange` leaves is the one the successful call of
`CreateTokenResponse` for that code left. -/
theorem CodeExchange_issued (pkg : Package σ) (r : HttpRequest) (exchanger : Exchanger σ)
    (s : σ) (tokenReq : AccessTokenRequest) (resp : TokenResponse)
    (hp : ParseAccessTokenRequest pkg r exchanger.Decoder = (some tokenReq, none))
    (hw : Event.MarshalJSON resp ∈ (CodeExchange pkg r exchanger s).trace) :
    tokenReq.Code ≠ "" ∧
      ∃ a c,
        (ValidateAccessTokenRequest pkg tokenReq exchanger s).val =
            .ret (some a, some c, none) ∧
          pkg.CreateTokenResponse (some a) (some c) exchanger true tokenReq.Code ""
              (ValidateAccessTokenRequest pkg tokenReq exchanger s).st =
            (.ok resp, (CodeExchange pkg r exchanger s).st) := by
  have hnw := ValidateAccessTokenRequest_not_mem_write pkg tokenReq exchanger s
  by_cases hcode : tokenReq.Code = ""
  · rw [CodeExchange_of_empty_code pkg r exchanger s tokenReq hp hcode] at hw
    simp at hw
  · refine ⟨hcode, ?_⟩
    rcases ValidateAccessTokenRequest_val pkg tokenReq exchanger s with ⟨a, c, hv⟩ | ⟨e, hv⟩
    · cases hc : pkg.CreateTokenResponse (some a) (some c) exchanger true tokenReq.Code ""
          (ValidateAccessTokenRequest pkg tokenReq exchanger s).st with
      | mk res s2 =>
        cases res with
        | error err =>
          rw [CodeExchange_of_issue_error pkg r exchanger s s2 tokenReq _ _ err hp hcode hv
            hc] at hw
          simp [hnw] at hw
        | ok resp0 =>
          rw [CodeExchange_of_issue_ok pkg r exchanger s s2 tokenReq _ _ resp0 hp hcode hv hc]
            at hw ⊢
          simp only [List.mem_cons, List.mem_append, List.mem_singleton, List.not_mem_nil,
            or_false, hnw, false_or, reduceCtorEq, Event.MarshalJSON.injEq] at hw
          subst hw
          exact ⟨a, c, hv, hc⟩
    · rw [CodeExchange_of_validate_error pkg r exchanger s tokenReq _ _ e hp hcode hv] at hw
      simp [hnw] at hw

/-- When what the client lookup, the assertion verifier and the secret verifier
answer does not depend on the state, a request that `AuthorizeCodeClient` accepts
in one state gets as far as the code lookup in every state. -/
theorem AuthorizeCodeClient_reaches_lookup (pkg : Package σ) (tokenReq : AccessTokenRequest)
    (exchanger : Exchanger σ) (hfix : RegistrationFixed pkg exchanger) (s s2 : σ)
    (a : AuthRequest) (c : Client)
    (h : (AuthorizeCodeClient pkg tokenReq exchanger s).val = .ret (some a, some c, none)) :
    Event.StorageAuthRequestByCode tokenReq.Code ∈
      (AuthorizeCodeClient pkg tokenReq exchanger s2).trace := by
  unfold AuthorizeCodeClient at h ⊢
  by_cases htype : tokenReq.ClientAssertionType = ClientAssertionTypeJWTAssertion
  · simp only [htype, if_true] at h ⊢
    cases hf : (!exchanger.JWTAuthorizationGrantExchanger ||
        !exchanger.AuthMethodPrivateKeyJWTSupported) with
    | true =>
      simp [hf] at h
    | false =>
      simp only [hf, Bool.false_eq_true, if_false] at h ⊢
      have hv := hfix.verifier tokenReq.ClientAssertion s s2
      rcases hs : pkg.AuthorizePrivateJWTKey tokenReq.ClientAssertion exchanger s with ⟨v, t⟩
      rcases hs2 : pkg.AuthorizePrivateJWTKey tokenReq.ClientAssertion exchanger s2 with
        ⟨v2, t2⟩
      rw [hs, hs2] at hv
      simp only at hv
      subst hv
      rw [hs] at h
      cases v with
      | error err => simp at h
      | ok client => simp [AuthRequestByCode_trace]
  · simp only [htype, if_false] at h ⊢
    have hv := hfix.clientLookup tokenReq.ClientID s s2
    rcases hs : exchanger.Storage.GetClientByClientID tokenReq.ClientID s with ⟨v, t⟩
    rcases hs2 : exchanger.Storage.GetClientByClientID tokenReq.ClientID s2 with ⟨v2, t2⟩
    rw [hs, hs2] at hv
    simp only at hv
    subst hv
    rw [hs] at h
    cases v with
    | error err => simp at h
    | ok client =>
      simp only at h ⊢
      by_cases h1 : client.AuthMethod = AuthMethodPrivateKeyJWT
      · simp [h1] at h
      · simp only [h1, if_false] at h ⊢
        by_cases h2 : client.AuthMethod = AuthMethodNone
        · simp only [h2, if_true]
          split <;> simp [AuthRequestByCode_trace]
        · simp only [h2, if_false] at h ⊢
          cases h3 : (decide (client.AuthMethod = AuthMethodPost) &&
              !exchanger.AuthMethodPostSupported) with
          | true => simp [h3] at h
          | false =>
            simp only [h3, Bool.false_eq_true, if_false] at h ⊢
            have hw := hfix.secret tokenReq.ClientID tokenReq.ClientSecret t t2
            rcases hq : pkg.AuthorizeClientIDSecret tokenReq.ClientID tokenReq.ClientSecret
              exchanger.Storage t with ⟨w, u⟩
            rcases hq2 : pkg.AuthorizeClientIDSecret tokenReq.ClientID tokenReq.ClientSecret
              exchanger.Storage t2 with ⟨w2, u2⟩
            rw [hq, hq2] at hw
            simp only at hw
            subst hw
            rw [hq] at h
            cases w with
            | some err => simp at h
            | none => simp [AuthRequestByCode_trace]

/-! ## The grant validator -/

/-- C1: when `AuthorizeCodeClient` succeeds with an auth request and a client whose
id differs from the auth request's client id, `ValidateAccessTokenRequest` returns
the error `InvalidGrant` (whatever the grant types and the redirect URIs), and
`CodeExchange` of a request that parses to this token request never calls
`CreateTokenResponse`. -/
theorem ValidateAccessTokenRequest_client_id_mismatch (pkg : Package σ)
    (tokenReq : AccessTokenRequest) (exchanger : Exchanger σ) (s : σ)
    (authReq : AuthRequest) (client : Client)
    (hauth : (AuthorizeCodeClient pkg tokenReq exchanger s).val =
      .ret (some authReq, some client, none))
    (hid : client.ID ≠ authReq.ClientID) :
    (ValidateAccessTokenRequest pkg tokenReq exchanger s).val =
        .ret (none, none, some (.oidc .InvalidGrant "" none)) ∧
      ∀ r : HttpRequest,
        ParseAccessTokenRequest pkg r exchanger.Decoder = (some tokenReq, none) →
        ∀ ev ∈ (CodeExchange pkg r exchanger s).trace, ev.isCreateTokenResponse = false := by
  have hval : (ValidateAccessTokenRequest pkg tokenReq exchanger s).val =
      .ret (none, none, some (.oidc .InvalidGrant "" none)) := by
    rw [ValidateAccessTokenRequest_of_ok pkg tokenReq exchanger s authReq client hauth]
    simp only [ne_eq, hid, not_false_eq_true, if_true]
    rfl
  refine ⟨hval, ?_⟩
  intro r hp ev hev
  unfold CodeExchange at hev
  simp only [hp] at hev
  split at hev
  · simp only [List.nil_append, List.mem_singleton] at hev
    subst hev
    rfl
  · simp only [hval, List.nil_append, List.mem_append, List.mem_cons, List.mem_singleton,
      List.not_mem_nil, or_false] at hev
    rcases hev with (h | h) | h
    · subst h
      rfl
    · rw [ValidateAccessTokenRequest_trace] at h
      exact (AuthorizeCodeClient_trace pkg tokenReq exchanger s ev h).1
    · subst h
      rfl

/-- C1, at the example deployment: the verified assertion is the one of client
`c3` and the code is the one issued to client `c2`. -/
theorem ValidateAccessTokenRequest_client_id_mismatch_witness :
    (ValidateAccessTokenRequest demoPackage
        { Code := "code2", RedirectURI := "https://a/cb", ClientAssertion := "jwt-c3",
          ClientAssertionType := ClientAssertionTypeJWTAssertion }
        demoExchanger demoInit).val =
      .ret (none, none, some (.oidc .InvalidGrant "" none)) ∧
    ∀ ev ∈ (CodeExchange demoPackage
        ⟨[], [("code", "code2"), ("redirect_uri", "https://a/cb"),
          ("client_assertion", "jwt-c3"),
          ("client_assertion_type", ClientAssertionTypeJWTAssertion)]⟩
        demoExchanger demoInit).trace, ev.isCreateTokenResponse = false :=
  (fun h => ⟨h.1, h.2 _ (by rfl)⟩)
    (ValidateAccessTokenRequest_client_id_mismatch demoPackage
      { Code := "code2", RedirectURI := "https://a/cb", ClientAssertion := "jwt-c3",
        ClientAssertionType := ClientAssertionTypeJWTAssertion }
      demoExchanger demoInit
      ⟨"ar2", "c2", "https://a/cb", none⟩ ⟨"c3", AuthMethodPrivateKeyJWT, [GrantTypeCode]⟩
      (by rfl) (by decide))

/-- C2: when `AuthorizeCodeClient` succeeds, the client id equals the auth
request's client id and the client's grant types include `authorization_code`, a
redirect URI that is not the very string recorded in the auth request makes
`ValidateAccessTokenRequest` fail with `InvalidGrant` described
"redirect_uri does not correspond". -/
theorem ValidateAccessTokenRequest_redirect_uri_mismatch (pkg : Package σ)
    (tokenReq : AccessTokenRequest) (exchanger : Exchanger σ) (s : σ)
    (authReq : AuthRequest) (client : Client)
    (hauth : (AuthorizeCodeClient pkg tokenReq exchanger s).val =
      .ret (some authReq, some client, none))
    (hid : client.ID = authReq.ClientID)
    (hgrant : GrantTypeCode ∈ client.GrantTypes)
    (hredirect : tokenReq.RedirectURI ≠ authReq.RedirectURI) :
    (ValidateAccessTokenRequest pkg tokenReq exchanger s).val =
      .ret (none, none, some (.oidc .InvalidGrant "redirect_uri does not correspond" none)) := by
  have hg : ValidateGrantType client GrantTypeCode = true := by
    simpa [ValidateGrantType] using hgrant
  rw [ValidateAccessTokenRequest_of_ok pkg tokenReq exchanger s authReq client hauth]
  simp only [ne_eq, hid, not_true_eq_false, if_false, hg, Bool.true_eq_false, hredirect,
    not_false_eq_true, if_true]
  rfl

/-- C2, at the example deployment: `"https://a/cb/"` is presented against the
recorded `"https://a/cb"`. -/
theorem ValidateAccessTokenRequest_redirect_uri_mismatch_witness :
    (ValidateAccessTokenRequest demoPackage
        { Code := "code2", RedirectURI := "https://a/cb/", ClientID := "c2",
          ClientSecret := "secret" }
        demoExchanger demoInit).val =
      .ret (none, none, some (.oidc .InvalidGrant "redirect_uri does not correspond" none)) :=
  ValidateAccessTokenRequest_redirect_uri_mismatch demoPackage _ demoExchanger demoInit
    ⟨"ar2", "c2", "https://a/cb", none⟩ ⟨"c2", AuthMethodPost, [GrantTypeCode]⟩
    (by rfl) (by decide) (by decide) (by decide)

/-- C3: when `AuthorizeCodeClient` succeeds and the client id equals the auth
request's client id, a client for which `ValidateGrantType` is false for
`authorization_code` makes `ValidateAccessTokenRequest` fail with
`UnauthorizedClient` described "client missing grant type authorization_code",
whatever the redirect URIs are. -/
theorem ValidateAccessTokenRequest_missing_grant_type (pkg : Package σ)
    (tokenReq : AccessTokenRequest) (exchanger : Exchanger σ) (s : σ)
    (authReq : AuthRequest) (client : Client)
    (hauth : (AuthorizeCodeClient pkg tokenReq exchanger s).val =
      .ret (some authReq, some client, none))
    (hid : client.ID = authReq.ClientID)
    (hgrant : ValidateGrantType client GrantTypeCode = false) :
    (ValidateAccessTokenRequest pkg tokenReq exchanger s).val =
      .ret (none, none,
        some (.oidc .UnauthorizedClient "client missing grant type authorization_code"
          none)) := by
  rw [ValidateAccessTokenRequest_of_ok pkg tokenReq exchanger s authReq client hauth]
  simp only [ne_eq, hid, not_true_eq_false, if_false, hgrant, if_true]
  rfl

/-- C3, at the example deployment: client `c5` is registered without
`authorization_code`, and the redirect URI differs as well. -/
theorem ValidateAccessTokenRequest_missing_grant_type_witness :
    (ValidateAccessTokenRequest demoPackage
        { Code := "code5", RedirectURI := "https://a/other", ClientID := "c5",
          ClientSecret := "secret" }
        demoExchanger demoInit).val =
      .ret (none, none,
        some (.oidc .UnauthorizedClient "client missing grant type authorization_code"
          none)) :=
  ValidateAccessTokenRequest_missing_grant_type demoPackage _ demoExchanger demoInit
    ⟨"ar5", "c5", "https://a/cb", none⟩ ⟨"c5", AuthMethodPost, ["refresh_token"]⟩
    (by rfl) (by decide) (by decide)

/-- C4: `ValidateAccessTokenRequest` returns without error exactly when
`AuthorizeCodeClient` succeeds with an auth request and a client that pass the
three checks (equal client ids, grant type `authorization_code`, equal redirect
URIs), and then it returns that auth request and that client; when
`AuthorizeCodeClient` succeeds, the error reported is that of the first failing
check in the order client id, grant type, redirect URI. -/
theorem ValidateAccessTokenRequest_success_iff (pkg : Package σ)
    (tokenReq : AccessTokenRequest) (exchanger : Exchanger σ) (s : σ) :
    (∀ (ra : Option AuthRequest) (rc : Option Client),
        (ValidateAccessTokenRequest pkg tokenReq exchanger s).val = .ret (ra, rc, none) ↔
          ∃ authReq client,
            (AuthorizeCodeClient pkg tokenReq exchanger s).val =
                .ret (some authReq, some client, none) ∧
              client.ID = authReq.ClientID ∧
              ValidateGrantType client GrantTypeCode = true ∧
              tokenReq.RedirectURI = authReq.RedirectURI ∧
              ra = some authReq ∧ rc = some client) ∧
      (∀ (authReq : AuthRequest) (client : Client),
        (AuthorizeCodeClient pkg tokenReq exchanger s).val =
            .ret (some authReq, some client, none) →
          (client.ID ≠ authReq.ClientID →
            (ValidateAccessTokenRequest pkg tokenReq exchanger s).val =
              .ret (none, none, some (.oidc .InvalidGrant "" none))) ∧
          (client.ID = authReq.ClientID → ValidateGrantType client GrantTypeCode = false →
            (ValidateAccessTokenRequest pkg tokenReq exchanger s).val =
              .ret (none, none,
                some (.oidc .UnauthorizedClient
                  "client missing grant type authorization_code" none))) ∧
          (client.ID = authReq.ClientID → ValidateGrantType client GrantTypeCode = true →
            tokenReq.RedirectURI ≠ authReq.RedirectURI →
            (ValidateAccessTokenRequest pkg tokenReq exchanger s).val =
              .ret (none, none,
                some (.oidc .InvalidGrant "redirect_uri does not correspond" none)))) := by
  constructor
  · intro ra rc
    rcases AuthorizeCodeClient_val pkg tokenReq exchanger s with ⟨a, c, h⟩ | ⟨xa, xc, e, h⟩
    · rw [ValidateAccessTokenRequest_of_ok pkg tokenReq exchanger s a c h]
      constructor
      · intro hv
        refine ⟨a, c, h, ?_⟩
        split_ifs at hv with h1 h2 h3
        · simp at hv
        · simp at hv
        · simp at hv
        · simp only [Result.ret.injEq, Prod.mk.injEq, and_true] at hv
          simp only [ne_eq, not_not] at h1 h3
          simp only [Bool.not_eq_false] at h2
          exact ⟨h1, h2, h3, hv.1.symm, hv.2.symm⟩
      · rintro ⟨a1, c1, h1, hid, hg, hr, rfl, rfl⟩
        rw [h] at h1
        simp only [Result.ret.injEq, Prod.mk.injEq, Option.some.injEq, and_true] at h1
        obtain ⟨rfl, rfl⟩ := h1
        simp [hid, hg, hr]
    · rw [ValidateAccessTokenRequest_of_err pkg tokenReq exchanger s xa xc e h]
      constructor
      · intro hv
        simp at hv
      · rintro ⟨a1, c1, h1, -⟩
        rw [h] at h1
        simp at h1
  · intro a c h
    rw [ValidateAccessTokenRequest_of_ok pkg tokenReq exchanger s a c h]
    refine ⟨?_, ?_, ?_⟩
    · intro hid
      simp only [ne_eq, hid, not_false_eq_true, if_true]
      rfl
    · intro hid hg
      simp only [ne_eq, hid, not_true_eq_false, if_false, hg, if_true]
      rfl
    · intro hid hg hr
      simp only [ne_eq, hid, not_true_eq_false, if_false, hg, Bool.true_eq_false, hr,
        not_false_eq_true, if_true]
      rfl

/-- C4, at the example deployment: client `c2` redeems its code with its secret
and the recorded redirect URI, and gets back its auth request and itself. -/
theorem ValidateAccessTokenRequest_success_iff_witness :
    (ValidateAccessTokenRequest demoPackage
        { Code := "code2", RedirectURI := "https://a/cb", ClientID := "c2",
          ClientSecret := "secret" }
        demoExchanger demoInit).val =
      .ret (some ⟨"ar2", "c2", "https://a/cb", none⟩,
        some ⟨"c2", AuthMethodPost, [GrantTypeCode]⟩, none) :=
  ((ValidateAccessTokenRequest_success_iff demoPackage
      { Code := "code2", RedirectURI := "https://a/cb", ClientID := "c2",
        ClientSecret := "secret" }
      demoExchanger demoInit).1 _ _).2
    ⟨⟨"ar2", "c2", "https://a/cb", none⟩, ⟨"c2", AuthMethodPost, [GrantTypeCode]⟩,
      by rfl, by decide, by decide, by decide, rfl, rfl⟩

/-! ## The client authenticator -/

/-- C5: for a request whose assertion type is not the JWT-bearer URN and whose
client id resolves in Storage to a client registered with `private_key_jwt`,
`AuthorizeCodeClient` and `ValidateAccessTokenRequest` fail with `InvalidClient`
described "private_key_jwt not allowed for this client"; the client lookup is the
only call made (no lookup of the auth request by code, no secret verification). -/
theorem AuthorizeCodeClient_private_key_jwt_not_allowed (pkg : Package σ)
    (tokenReq : AccessTokenRequest) (exchanger : Exchanger σ) (s s1 : σ) (client : Client)
    (htype : tokenReq.ClientAssertionType ≠ ClientAssertionTypeJWTAssertion)
    (hclient : exchanger.Storage.GetClientByClientID tokenReq.ClientID s = (.ok client, s1))
    (hmethod : client.AuthMethod = AuthMethodPrivateKeyJWT) :
    AuthorizeCodeClient pkg tokenReq exchanger s =
        ⟨.ret (none, none,
            some (.oidc .InvalidClient "private_key_jwt not allowed for this client" none)),
          s1, [.GetClientByClientID tokenReq.ClientID]⟩ ∧
      ValidateAccessTokenRequest pkg tokenReq exchanger s =
        ⟨.ret (none, none,
            some (.oidc .InvalidClient "private_key_jwt not allowed for this client" none)),
          s1, [.GetClientByClientID tokenReq.ClientID]⟩ := by
  have hauth : AuthorizeCodeClient pkg tokenReq exchanger s =
      ⟨.ret (none, none,
          some (.oidc .InvalidClient "private_key_jwt not allowed for this client" none)),
        s1, [.GetClientByClientID tokenReq.ClientID]⟩ := by
    unfold AuthorizeCodeClient
    simp only [htype, if_false, hclient, hmethod, if_true]
    rfl
  refine ⟨hauth, ?_⟩
  unfold ValidateAccessTokenRequest
  simp only [hauth]

/-- C5, at the example deployment: client `c3` is registered with
`private_key_jwt` and presents its secret instead of an assertion. -/
theorem AuthorizeCodeClient_private_key_jwt_not_allowed_witness :
    AuthorizeCodeClient demoPackage
        { Code := "code3", RedirectURI := "https://a/cb", ClientID := "c3",
          ClientSecret := "secret" }
        demoExchanger demoInit =
      ⟨.ret (none, none,
          some (.oidc .InvalidClient "private_key_jwt not allowed for this client" none)),
        demoInit, [.GetClientByClientID "c3"]⟩ :=
  (AuthorizeCodeClient_private_key_jwt_not_allowed demoPackage
    { Code := "code3", RedirectURI := "https://a/cb", ClientID := "c3",
      ClientSecret := "secret" }
    demoExchanger demoInit demoInit ⟨"c3", AuthMethodPrivateKeyJWT, [GrantTypeCode]⟩
    (by decide) (by rfl) (by rfl)).1

/-- C6: at the example deployment client `c1`, registered with `none`, presents
a client secret that the secret verifier refuses. `AuthorizeCodeClient` does not
refuse the request: it authenticates `c1` by the code lookup and the PKCE check
alone, the secret verifier is not among its calls, and
`ValidateAccessTokenRequest` returns success. -/
theorem AuthorizeCodeClient_none_ignores_secret :
    (demoStorage.GetClientByClientID "c1" demoInit).1 =
        .ok ⟨"c1", AuthMethodNone, [GrantTypeCode]⟩ ∧
      (demoPackage.AuthorizeClientIDSecret "c1" "not-the-secret" demoStorage demoInit).1 =
        some (.oidc .InvalidClient "invalid client_id / client_secret" none) ∧
      AuthorizeCodeClient demoPackage
          { Code := "code1", RedirectURI := "https://app/cb", ClientID := "c1",
            ClientSecret := "not-the-secret", CodeVerifier := "v" }
          demoExchanger demoInit =
        ⟨.ret (some ⟨"ar1", "c1", "https://app/cb", some ⟨"S256(v)", "S256"⟩⟩,
            some ⟨"c1", AuthMethodNone, [GrantTypeCode]⟩, none),
          demoInit,
          [.GetClientByClientID "c1", .StorageAuthRequestByCode "code1",
            .AuthorizeCodeChallenge
              { Code := "code1", RedirectURI := "https://app/cb", ClientID := "c1",
                ClientSecret := "not-the-secret", CodeVerifier := "v" }
              (some ⟨"S256(v)", "S256"⟩)]⟩ ∧
      (ValidateAccessTokenRequest demoPackage
          { Code := "code1", RedirectURI := "https://app/cb", ClientID := "c1",
            ClientSecret := "not-the-secret", CodeVerifier := "v" }
          demoExchanger demoInit).val =
        .ret (some ⟨"ar1", "c1", "https://app/cb", some ⟨"S256(v)", "S256"⟩⟩,
          some ⟨"c1", AuthMethodNone, [GrantTypeCode]⟩, none) :=
  ⟨by rfl, by rfl, by rfl, by rfl⟩

/-- C7, refuted as stated: at the example deployment client `c4` is registered with
`client_secret_basic`, which is none of `none`, `client_secret_post` and
`private_key_jwt`; it presents its secret and its code, and `AuthorizeCodeClient`
returns success. -/
theorem AuthorizeCodeClient_other_method_accepted :
    (demoStorage.GetClientByClientID "c4" demoInit).1 =
        .ok ⟨"c4", AuthMethodBasic, [GrantTypeCode]⟩ ∧
      AuthMethodBasic ≠ AuthMethodNone ∧ AuthMethodBasic ≠ AuthMethodPost ∧
      AuthMethodBasic ≠ AuthMethodPrivateKeyJWT ∧
      AuthorizeCodeClient demoPackage
          { Code := "code4", RedirectURI := "https://a/cb", ClientID := "c4",
            ClientSecret := "secret" }
          demoExchanger demoInit =
        ⟨.ret (some ⟨"ar4", "c4", "https://a/cb", none⟩,
            some ⟨"c4", AuthMethodBasic, [GrantTypeCode]⟩, none),
          demoInit,
          [.GetClientByClientID "c4", .AuthorizeClientIDSecret "c4" "secret",
            .StorageAuthRequestByCode "code4"]⟩ :=
  ⟨by rfl, by decide, by decide, by decide, by rfl⟩

/-- C7, as amended: for a request without the JWT-bearer assertion type whose
client id resolves to a client whose method is none of `none`,
`client_secret_post` and `private_key_jwt`, `AuthorizeCodeClient` authenticates by
the client secret: when `AuthorizeClientIDSecret` fails with an error it returns
that error without looking up the code, and when it succeeds the result is the
result of `AuthRequestByCode` for the code together with the looked-up client
(success when the code lookup succeeds). -/
theorem AuthorizeCodeClient_other_method_uses_secret (pkg : Package σ)
    (tokenReq : AccessTokenRequest) (exchanger : Exchanger σ) (s s1 s2 : σ) (client : Client)
    (htype : tokenReq.ClientAssertionType ≠ ClientAssertionTypeJWTAssertion)
    (hclient : exchanger.Storage.GetClientByClientID tokenReq.ClientID s = (.ok client, s1))
    (hnone : client.AuthMethod ≠ AuthMethodNone)
    (hpost : client.AuthMethod ≠ AuthMethodPost)
    (hjwt : client.AuthMethod ≠ AuthMethodPrivateKeyJWT) :
    (∀ err : GoError,
      pkg.AuthorizeClientIDSecret tokenReq.ClientID tokenReq.ClientSecret exchanger.Storage s1 =
          (some err, s2) →
        AuthorizeCodeClient pkg tokenReq exchanger s =
          ⟨.ret (none, none, some err), s2,
            [.GetClientByClientID tokenReq.ClientID,
              .AuthorizeClientIDSecret tokenReq.ClientID tokenReq.ClientSecret]⟩) ∧
    (pkg.AuthorizeClientIDSecret tokenReq.ClientID tokenReq.ClientSecret exchanger.Storage s1 = (none, s2) →
      AuthorizeCodeClient pkg tokenReq exchanger s =
          ⟨.ret ((AuthRequestByCode exchanger.Storage tokenReq.Code s2).val.1, some client,
              (AuthRequestByCode exchanger.Storage tokenReq.Code s2).val.2),
            (AuthRequestByCode exchanger.Storage tokenReq.Code s2).st,
            [.GetClientByClientID tokenReq.ClientID,
              .AuthorizeClientIDSecret tokenReq.ClientID tokenReq.ClientSecret,
              .StorageAuthRequestByCode tokenReq.Code]⟩ ∧
        ∀ (authReq : AuthRequest) (s3 : σ),
          exchanger.Storage.AuthRequestByCode tokenReq.Code s2 = (.ok authReq, s3) →
            (AuthorizeCodeClient pkg tokenReq exchanger s).val =
              .ret (some authReq, some client, none)) := by
  constructor
  · intro err hsecret
    unfold AuthorizeCodeClient
    simp only [htype, if_false, hclient, hnone, hpost, hjwt, Bool.false_and, decide_False,
      Bool.false_eq_true, hsecret]
  · intro hsecret
    have hrun : AuthorizeCodeClient pkg tokenReq exchanger s =
        ⟨.ret ((AuthRequestByCode exchanger.Storage tokenReq.Code s2).val.1, some client,
            (AuthRequestByCode exchanger.Storage tokenReq.Code s2).val.2),
          (AuthRequestByCode exchanger.Storage tokenReq.Code s2).st,
          [.GetClientByClientID tokenReq.ClientID,
            .AuthorizeClientIDSecret tokenReq.ClientID tokenReq.ClientSecret,
            .StorageAuthRequestByCode tokenReq.Code]⟩ := by
      unfold AuthorizeCodeClient
      simp only [htype, if_false, hclient, hnone, hpost, hjwt, Bool.false_and, decide_False,
        Bool.false_eq_true, hsecret, AuthRequestByCode_trace]
    refine ⟨hrun, ?_⟩
    intro authReq s3 hcode
    rw [hrun]
    unfold AuthRequestByCode
    simp only [hcode]

/-- C7 as amended, at the example deployment: client `c4` (`client_secret_basic`)
presents a wrong secret and is refused with the secret verifier's error. -/
theorem AuthorizeCodeClient_other_method_uses_secret_witness :
    AuthorizeCodeClient demoPackage
        { Code := "code4", RedirectURI := "https://a/cb", ClientID := "c4",
          ClientSecret := "guess" }
        demoExchanger demoInit =
      ⟨.ret (none, none,
          some (.oidc .InvalidClient "invalid client_id / client_secret" none)),
        demoInit, [.GetClientByClientID "c4", .AuthorizeClientIDSecret "c4" "guess"]⟩ :=
  (AuthorizeCodeClient_other_method_uses_secret demoPackage
    { Code := "code4", RedirectURI := "https://a/cb", ClientID := "c4",
      ClientSecret := "guess" }
    demoExchanger demoInit demoInit demoInit ⟨"c4", AuthMethodBasic, [GrantTypeCode]⟩
    (by decide) (by rfl) (by decide) (by decide) (by decide)).1
    (.oidc .InvalidClient "invalid client_id / client_secret" none) (by rfl)

/-! ## The exchange orchestrator -/

/-- C8: for a request that parses to a record with an empty code, `CodeExchange`
writes `InvalidRequest` described "code missing" and returns; that write is its
only event (no call of `ValidateAccessTokenRequest`, of a Storage operation or of
`CreateTokenResponse`) and the state is left as it was. -/
theorem CodeExchange_code_missing (pkg : Package σ) (r : HttpRequest)
    (exchanger : Exchanger σ) (s : σ) (tokenReq : AccessTokenRequest)
    (hp : ParseAccessTokenRequest pkg r exchanger.Decoder = (some tokenReq, none))
    (hcode : tokenReq.Code = "") :
    CodeExchange pkg r exchanger s =
      ⟨.returned, s, [.RequestError (.oidc .InvalidRequest "code missing" none)]⟩ :=
  CodeExchange_of_empty_code pkg r exchanger s tokenReq hp hcode

/-- C8, at the example deployment: the form carries client credentials and no code. -/
theorem CodeExchange_code_missing_witness :
    CodeExchange demoPackage
        ⟨[], [("client_id", "c2"), ("client_secret", "secret"),
          ("redirect_uri", "https://a/cb")]⟩
        demoExchanger demoInit =
      ⟨.returned, demoInit, [.RequestError (.oidc .InvalidRequest "code missing" none)]⟩ :=
  CodeExchange_code_missing demoPackage _ demoExchanger demoInit
    { RedirectURI := "https://a/cb", ClientID := "c2", ClientSecret := "secret" }
    (by rfl) (by rfl)

/-- C9: at the example deployment a request whose form has a malformed escape
fails to parse; `CodeExchange` writes the parse error and then, instead of
returning, reads `tokenReq.Code` through the nil request and panics. -/
theorem CodeExchange_parse_error_panics :
    ParseAccessTokenRequest demoPackage ⟨[], [("code", "%zz")]⟩ demoExchanger.Decoder =
        (none,
          some (.oidc .InvalidRequest "error parsing form"
            (some (.external "invalid URL escape")))) ∧
      CodeExchange demoPackage ⟨[], [("code", "%zz")]⟩ demoExchanger demoInit =
        ⟨.panicked nilDereference, demoInit,
          [.RequestError (.oidc .InvalidRequest "error parsing form"
            (some (.external "invalid URL escape")))]⟩ :=
  ⟨by rfl, by rfl⟩

/-- C10: `CodeExchange` calls `CreateTokenResponse` at most once and writes at most
one token response. A call of `CreateTokenResponse` is made only for a request that
parsed, has a non-empty code and passed `ValidateAccessTokenRequest`, and it is
handed the auth request and the client validation returned (and `true`, the code
and `""`). A token response is written only when that call of
`CreateTokenResponse` succeeded, and it is the response the call returned. -/
theorem CodeExchange_issues_only_after_validation (pkg : Package σ) (r : HttpRequest)
    (exchanger : Exchanger σ) (s : σ) :
    ((CodeExchange pkg r exchanger s).trace.filter Event.isCreateTokenResponse).length ≤ 1 ∧
    ((CodeExchange pkg r exchanger s).trace.filter Event.isMarshalJSON).length ≤ 1 ∧
    (∀ (ra : Option AuthRequest) (rc : Option Client) (b : Bool) (code rt : String),
      Event.CreateTokenResponse ra rc b code rt ∈ (CodeExchange pkg r exchanger s).trace →
        ∃ tokenReq,
          ParseAccessTokenRequest pkg r exchanger.Decoder = (some tokenReq, none) ∧
          tokenReq.Code ≠ "" ∧
          (ValidateAccessTokenRequest pkg tokenReq exchanger s).val = .ret (ra, rc, none) ∧
          b = true ∧ code = tokenReq.Code ∧ rt = "") ∧
    (∀ resp : TokenResponse,
      Event.MarshalJSON resp ∈ (CodeExchange pkg r exchanger s).trace →
        ∃ tokenReq ra rc,
          ParseAccessTokenRequest pkg r exchanger.Decoder = (some tokenReq, none) ∧
          tokenReq.Code ≠ "" ∧
          (ValidateAccessTokenRequest pkg tokenReq exchanger s).val = .ret (ra, rc, none) ∧
          (pkg.CreateTokenResponse ra rc exchanger true tokenReq.Code ""
            (ValidateAccessTokenRequest pkg tokenReq exchanger s).st).1 = .ok resp) := by
  rcases ParseAccessTokenRequest_val pkg r exchanger.Decoder with ⟨tokenReq, hp⟩ | ⟨err, hp⟩
  · by_cases hcode : tokenReq.Code = ""
    · rw [CodeExchange_of_empty_code pkg r exchanger s tokenReq hp hcode]
      simp [Event.isCreateTokenResponse, Event.isMarshalJSON]
    · have hni := ValidateAccessTokenRequest_not_mem_issue pkg tokenReq exchanger s
      have hnw := ValidateAccessTokenRequest_not_mem_write pkg tokenReq exchanger s
      have hfi := ValidateAccessTokenRequest_filter_issue pkg tokenReq exchanger s
      have hfw := ValidateAccessTokenRequest_filter_write pkg tokenReq exchanger s
      rcases ValidateAccessTokenRequest_val pkg tokenReq exchanger s with ⟨a, c, hv⟩ | ⟨e, hv⟩
      · cases hc : pkg.CreateTokenResponse (some a) (some c) exchanger true tokenReq.Code ""
            (ValidateAccessTokenRequest pkg tokenReq exchanger s).st with
        | mk res s2 =>
          cases res with
          | error err =>
            rw [CodeExchange_of_issue_error pkg r exchanger s s2 tokenReq _ _ err hp hcode hv hc]
            refine ⟨?_, ?_, ?_, ?_⟩
            · simp [List.filter_cons, hfi, Event.isCreateTokenResponse]
            · simp [List.filter_cons, hfw, Event.isMarshalJSON]
            · intro ra rc b code rt hmem
              simp only [List.mem_cons, List.mem_append, List.mem_singleton, List.not_mem_nil,
                or_false, hni, false_or, reduceCtorEq, Event.CreateTokenResponse.injEq] at hmem
              obtain ⟨rfl, rfl, rfl, rfl, rfl⟩ := hmem
              exact ⟨tokenReq, hp, hcode, hv, rfl, rfl, rfl⟩
            · intro resp hmem
              simp [hnw] at hmem
          | ok resp0 =>
            rw [CodeExchange_of_issue_ok pkg r exchanger s s2 tokenReq _ _ resp0 hp hcode hv hc]
            refine ⟨?_, ?_, ?_, ?_⟩
            · simp [List.filter_cons, hfi, Event.isCreateTokenResponse]
            · simp [List.filter_cons, hfw, Event.isMarshalJSON]
            · intro ra rc b code rt hmem
              simp only [List.mem_cons, List.mem_append, List.mem_singleton, List.not_mem_nil,
                or_false, hni, false_or, reduceCtorEq, Event.CreateTokenResponse.injEq] at hmem
              obtain ⟨rfl, rfl, rfl, rfl, rfl⟩ := hmem
              exact ⟨tokenReq, hp, hcode, hv, rfl, rfl, rfl⟩
            · intro resp hmem
              simp only [List.mem_cons, List.mem_append, List.mem_singleton, List.not_mem_nil,
                or_false, hnw, false_or, reduceCtorEq, Event.MarshalJSON.injEq] at hmem
              subst hmem
              exact ⟨tokenReq, _, _, hp, hcode, hv, by rw [hc]⟩
      · rw [CodeExchange_of_validate_error pkg r exchanger s tokenReq _ _ e hp hcode hv]
        refine ⟨?_, ?_, ?_, ?_⟩
        · simp [List.filter_cons, hfi, Event.isCreateTokenResponse]
        · simp [List.filter_cons, hfw, Event.isMarshalJSON]
        · intro ra rc b code rt hmem
          simp [hni] at hmem
        · intro resp hmem
          simp [hnw] at hmem
  · rw [CodeExchange_of_parse_error pkg r exchanger s err hp]
    simp [Event.isCreateTokenResponse, Event.isMarshalJSON]

/-- C10, at the example deployment: client `c2` redeems `code2`; the one token
response written is the one `CreateTokenResponse` returned for the validated auth
request and client. -/
theorem CodeExchange_issues_only_after_validation_witness :
    ∃ tokenReq ra rc,
      ParseAccessTokenRequest demoPackage
          ⟨[], [("code", "code2"), ("redirect_uri", "https://a/cb"), ("client_id", "c2"),
            ("client_secret", "secret")]⟩
          demoExchanger.Decoder = (some tokenReq, none) ∧
      tokenReq.Code ≠ "" ∧
      (ValidateAccessTokenRequest demoPackage tokenReq demoExchanger demoInit).val =
        .ret (ra, rc, none) ∧
      (demoPackage.CreateTokenResponse ra rc demoExchanger true tokenReq.Code ""
        (ValidateAccessTokenRequest demoPackage tokenReq demoExchanger demoInit).st).1 =
          .ok ⟨"at-code2", "Bearer", "", 299, "idt-code2", ""⟩ :=
  (CodeExchange_issues_only_after_validation demoPackage
    ⟨[], [("code", "code2"), ("redirect_uri", "https://a/cb"), ("client_id", "c2"),
      ("client_secret", "secret")]⟩
    demoExchanger demoInit).2.2.2 ⟨"at-code2", "Bearer", "", 299, "idt-code2", ""⟩
    (List.mem_of_getLast?_eq_some (by rfl))

/-! ## The client authenticator, path by path -/

/-- C11: for a request with the JWT-bearer assertion type, when the exchanger does
not implement `JWTAuthorizationGrantExchanger` or does not support
`private_key_jwt`, `AuthorizeCodeClient` fails with `InvalidClient` described
"auth_method private_key_jwt not supported"; it makes no call at all (neither the
assertion verifier nor a Storage operation) and leaves the state as it was. -/
theorem AuthorizeCodeClient_private_key_jwt_not_supported (pkg : Package σ)
    (tokenReq : AccessTokenRequest) (exchanger : Exchanger σ) (s : σ)
    (htype : tokenReq.ClientAssertionType = ClientAssertionTypeJWTAssertion)
    (hcap : exchanger.JWTAuthorizationGrantExchanger = false ∨
      exchanger.AuthMethodPrivateKeyJWTSupported = false) :
    AuthorizeCodeClient pkg tokenReq exchanger s =
      ⟨.ret (none, none,
          some (.oidc .InvalidClient "auth_method private_key_jwt not supported" none)),
        s, []⟩ := by
  unfold AuthorizeCodeClient
  rcases hcap with h | h
  · simp only [htype, if_true, h, Bool.not_false, Bool.true_or]
    rfl
  · simp only [htype, if_true, h, Bool.not_false, Bool.or_true]
    rfl

/-- C11, at the example deployment with an exchanger that does not implement
`JWTAuthorizationGrantExchanger`. -/
theorem AuthorizeCodeClient_private_key_jwt_not_supported_witness :
    AuthorizeCodeClient demoPackage
        { Code := "code3", RedirectURI := "https://a/cb", ClientAssertion := "jwt-c3",
          ClientAssertionType := ClientAssertionTypeJWTAssertion }
        { demoExchanger with JWTAuthorizationGrantExchanger := false } demoInit =
      ⟨.ret (none, none,
          some (.oidc .InvalidClient "auth_method private_key_jwt not supported" none)),
        demoInit, []⟩ :=
  AuthorizeCodeClient_private_key_jwt_not_supported demoPackage
    { Code := "code3", RedirectURI := "https://a/cb", ClientAssertion := "jwt-c3",
      ClientAssertionType := ClientAssertionTypeJWTAssertion }
    { demoExchanger with JWTAuthorizationGrantExchanger := false } demoInit
    (by rfl) (Or.inl (by rfl))

/-- C12, refuted as stated: at the example deployment the assertion of client
`c3` with the code of `c3` is accepted; with a Storage in which
`GetClientByClientID` finds no client, the same request is refused with the error
of that lookup, which the assertion verifier makes in the Storage of the exchanger
it is handed. -/
theorem AuthorizeCodeClient_jwt_depends_on_client_lookup :
    (AuthorizeCodeClient demoPackage
          { Code := "code3", RedirectURI := "https://a/cb", ClientAssertion := "jwt-c3",
            ClientAssertionType := ClientAssertionTypeJWTAssertion }
          demoExchanger demoInit).val =
        .ret (some ⟨"ar3", "c3", "https://a/cb", none⟩,
          some ⟨"c3", AuthMethodPrivateKeyJWT, [GrantTypeCode]⟩, none) ∧
      (AuthorizeCodeClient demoPackage
          { Code := "code3", RedirectURI := "https://a/cb", ClientAssertion := "jwt-c3",
            ClientAssertionType := ClientAssertionTypeJWTAssertion }
          { demoExchanger with
            Storage := { demoStorage with
              GetClientByClientID := fun _ s =>
                (.error (.external "client not found"), s) } }
          demoInit).val =
        .ret (none, none, some (.external "client not found")) :=
  ⟨by rfl, by rfl⟩

/-- C12, as amended: for a request with the JWT-bearer assertion type, the run of
`AuthorizeCodeClient` is the same when the client id and the client secret of the
request are replaced by any others; no call that `AuthorizeCodeClient` makes
itself is a call of `GetClientByClientID` or of the secret verifier; and a client
it returns is the one the assertion verifier produced for the assertion with the
exchanger. What the verifier, which is handed the exchanger, asks of its Storage
is the verifier's. -/
theorem AuthorizeCodeClient_jwt_ignores_client_id (pkg : Package σ)
    (tokenReq : AccessTokenRequest) (exchanger : Exchanger σ) (s : σ)
    (htype : tokenReq.ClientAssertionType = ClientAssertionTypeJWTAssertion) :
    (∀ (clientID clientSecret : String),
      AuthorizeCodeClient pkg
          { tokenReq with ClientID := clientID, ClientSecret := clientSecret }
          exchanger s =
        AuthorizeCodeClient pkg tokenReq exchanger s) ∧
    (∀ ev ∈ (AuthorizeCodeClient pkg tokenReq exchanger s).trace,
      (∀ id, ev ≠ .GetClientByClientID id) ∧
        ∀ id secret, ev ≠ .AuthorizeClientIDSecret id secret) ∧
    (∀ (ra : Option AuthRequest) (client : Client) (re : Option GoError),
      (AuthorizeCodeClient pkg tokenReq exchanger s).val = .ret (ra, some client, re) →
        (pkg.AuthorizePrivateJWTKey tokenReq.ClientAssertion exchanger s).1 = .ok client) := by
  refine ⟨?_, ?_, ?_⟩
  · intro clientID clientSecret
    unfold AuthorizeCodeClient AuthRequestByCode
    simp only [htype, if_true]
  · intro ev hev
    unfold AuthorizeCodeClient at hev
    simp only [htype, if_true] at hev
    split at hev
    · simp at hev
    · split at hev
      · simp only [List.mem_singleton] at hev
        subst hev
        exact ⟨fun _ => by simp, fun _ _ => by simp⟩
      · simp only [AuthRequestByCode_trace, List.mem_cons, List.mem_singleton,
          List.not_mem_nil, or_false] at hev
        rcases hev with h | h
        · subst h
          exact ⟨fun _ => by simp, fun _ _ => by simp⟩
        · subst h
          exact ⟨fun _ => by simp, fun _ _ => by simp⟩
  · intro ra client re hval
    unfold AuthorizeCodeClient at hval
    simp only [htype, if_true] at hval
    split at hval
    · simp at hval
    · split at hval
      · simp at hval
      · rename_i c s1 heq
        simp only [Result.ret.injEq, Prod.mk.injEq, Option.some.injEq] at hval
        rw [heq, ← hval.2.1]

/-- C12 as amended, at the example deployment: the assertion of client `c3` is
presented with the client id and a wrong secret of another client. -/
theorem AuthorizeCodeClient_jwt_ignores_client_id_witness :
    AuthorizeCodeClient demoPackage
        { Code := "code3", RedirectURI := "https://a/cb", ClientID := "c2",
          ClientSecret := "guess", ClientAssertion := "jwt-c3",
          ClientAssertionType := ClientAssertionTypeJWTAssertion }
        demoExchanger demoInit =
      AuthorizeCodeClient demoPackage
        { Code := "code3", RedirectURI := "https://a/cb", ClientAssertion := "jwt-c3",
          ClientAssertionType := ClientAssertionTypeJWTAssertion }
        demoExchanger demoInit :=
  (AuthorizeCodeClient_jwt_ignores_client_id demoPackage
    { Code := "code3", RedirectURI := "https://a/cb", ClientAssertion := "jwt-c3",
      ClientAssertionType := ClientAssertionTypeJWTAssertion }
    demoExchanger demoInit (by rfl)).1 "c2" "guess"

/-- C13: when the Storage lookup succeeds, `AuthRequestByCode` returns the stored
auth request as it is and no error; when the Storage lookup fails with an error,
it returns no auth request and `InvalidGrant` described "invalid code" with that
error as parent, so the error code and the description are the same for every
cause. The Storage lookup is its only call. -/
theorem AuthRequestByCode_wraps_lookup (storage : Storage σ) (code : String) (s : σ) :
    (∀ (authReq : AuthRequest) (s1 : σ),
      storage.AuthRequestByCode code s = (.ok authReq, s1) →
        AuthRequestByCode storage code s =
          ⟨(some authReq, none), s1, [.StorageAuthRequestByCode code]⟩) ∧
    (∀ (err : GoError) (s1 : σ),
      storage.AuthRequestByCode code s = (.error err, s1) →
        AuthRequestByCode storage code s =
            ⟨(none, some (.oidc .InvalidGrant "invalid code" (some err))), s1,
              [.StorageAuthRequestByCode code]⟩ ∧
          (GoError.oidc .InvalidGrant "invalid code" (some err)).errorType =
            some .InvalidGrant ∧
          (GoError.oidc .InvalidGrant "invalid code" (some err)).description =
            "invalid code" ∧
          (GoError.oidc .InvalidGrant "invalid code" (some err)).parent = some err) := by
  constructor
  · intro authReq s1 h
    unfold AuthRequestByCode
    simp only [h]
  · intro err s1 h
    refine ⟨?_, rfl, rfl, rfl⟩
    unfold AuthRequestByCode
    simp only [h]
    rfl

/-- C13, at the example deployment: a code that is not redeemable is looked up. -/
theorem AuthRequestByCode_wraps_lookup_witness :
    AuthRequestByCode demoStorage "code9" demoInit =
      ⟨(none, some (.oidc .InvalidGrant "invalid code" (some (.external "grant not found")))),
        demoInit, [.StorageAuthRequestByCode "code9"]⟩ :=
  ((AuthRequestByCode_wraps_lookup demoStorage "code9" demoInit).2
    (.external "grant not found") demoInit (by rfl)).1

/-- C14: for a request without the JWT-bearer assertion type whose client id
resolves to a client registered with `none` and whose code lookup succeeds: when
`AuthorizeCodeChallenge` returns an error, `AuthorizeCodeClient` and
`ValidateAccessTokenRequest` fail with exactly that error, whatever the client id,
the grant types and the redirect URIs are; when it returns no error,
`AuthorizeCodeClient` succeeds with the fetched auth request and the looked-up
client. -/
theorem AuthorizeCodeClient_none_pkce (pkg : Package σ)
    (tokenReq : AccessTokenRequest) (exchanger : Exchanger σ) (s s1 s2 : σ)
    (client : Client) (authReq : AuthRequest)
    (htype : tokenReq.ClientAssertionType ≠ ClientAssertionTypeJWTAssertion)
    (hclient : exchanger.Storage.GetClientByClientID tokenReq.ClientID s = (.ok client, s1))
    (hmethod : client.AuthMethod = AuthMethodNone)
    (hcode : exchanger.Storage.AuthRequestByCode tokenReq.Code s1 = (.ok authReq, s2)) :
    (∀ err : GoError,
      pkg.AuthorizeCodeChallenge tokenReq authReq.CodeChallenge = some err →
        (AuthorizeCodeClient pkg tokenReq exchanger s).val =
            .ret (some authReq, some client, some err) ∧
          (ValidateAccessTokenRequest pkg tokenReq exchanger s).val =
            .ret (none, none, some err)) ∧
    (pkg.AuthorizeCodeChallenge tokenReq authReq.CodeChallenge = none →
      (AuthorizeCodeClient pkg tokenReq exchanger s).val =
        .ret (some authReq, some client, none)) := by
  have hne : AuthMethodNone ≠ AuthMethodPrivateKeyJWT := by decide
  have hq : AuthRequestByCode exchanger.Storage tokenReq.Code s1 =
      ⟨(some authReq, none), s2, [.StorageAuthRequestByCode tokenReq.Code]⟩ := by
    unfold AuthRequestByCode
    simp only [hcode]
  have hval : (AuthorizeCodeClient pkg tokenReq exchanger s).val =
      .ret (some authReq, some client,
        pkg.AuthorizeCodeChallenge tokenReq authReq.CodeChallenge) := by
    unfold AuthorizeCodeClient
    simp only [htype, if_false, hclient, hmethod, hne, if_true, hq]
  constructor
  · intro err hpkce
    rw [hpkce] at hval
    exact ⟨hval, ValidateAccessTokenRequest_of_err pkg tokenReq exchanger s _ _ err hval⟩
  · intro hpkce
    rw [hpkce] at hval
    exact hval

/-- C14, at the example deployment: client `c1` redeems its code with the right
redirect URI and a wrong code verifier. -/
theorem AuthorizeCodeClient_none_pkce_witness :
    (AuthorizeCodeClient demoPackage
        { Code := "code1", RedirectURI := "https://app/cb", ClientID := "c1",
          CodeVerifier := "w" }
        demoExchanger demoInit).val =
      .ret (some ⟨"ar1", "c1", "https://app/cb", some ⟨"S256(v)", "S256"⟩⟩,
        some ⟨"c1", AuthMethodNone, [GrantTypeCode]⟩,
        some (.oidc .InvalidGrant "invalid code challenge" none)) ∧
    (ValidateAccessTokenRequest demoPackage
        { Code := "code1", RedirectURI := "https://app/cb", ClientID := "c1",
          CodeVerifier := "w" }
        demoExchanger demoInit).val =
      .ret (none, none, some (.oidc .InvalidGrant "invalid code challenge" none)) :=
  (AuthorizeCodeClient_none_pkce demoPackage
    { Code := "code1", RedirectURI := "https://app/cb", ClientID := "c1",
      CodeVerifier := "w" }
    demoExchanger demoInit demoInit demoInit ⟨"c1", AuthMethodNone, [GrantTypeCode]⟩
    ⟨"ar1", "c1", "https://app/cb", some ⟨"S256(v)", "S256"⟩⟩
    (by decide) (by rfl) (by rfl) (by rfl)).1
    (.oidc .InvalidGrant "invalid code challenge" none) (by rfl)

/-- C15: for a request without the JWT-bearer assertion type whose client id
resolves to a client registered with `client_secret_post`, on an exchanger that
supports it: when `AuthorizeClientIDSecret` fails with an error,
`AuthorizeCodeClient` returns exactly that error and the code is not looked up;
when it succeeds, the result is the result of `AuthRequestByCode` for the code
together with the looked-up client. -/
theorem AuthorizeCodeClient_post_secret (pkg : Package σ)
    (tokenReq : AccessTokenRequest) (exchanger : Exchanger σ) (s s1 s2 : σ)
    (client : Client)
    (htype : tokenReq.ClientAssertionType ≠ ClientAssertionTypeJWTAssertion)
    (hclient : exchanger.Storage.GetClientByClientID tokenReq.ClientID s = (.ok client, s1))
    (hmethod : client.AuthMethod = AuthMethodPost)
    (hsup : exchanger.AuthMethodPostSupported = true) :
    (∀ err : GoError,
      pkg.AuthorizeClientIDSecret tokenReq.ClientID tokenReq.ClientSecret exchanger.Storage s1 =
          (some err, s2) →
        AuthorizeCodeClient pkg tokenReq exchanger s =
          ⟨.ret (none, none, some err), s2,
            [.GetClientByClientID tokenReq.ClientID,
              .AuthorizeClientIDSecret tokenReq.ClientID tokenReq.ClientSecret]⟩) ∧
    (pkg.AuthorizeClientIDSecret tokenReq.ClientID tokenReq.ClientSecret exchanger.Storage s1 = (none, s2) →
      AuthorizeCodeClient pkg tokenReq exchanger s =
        ⟨.ret ((AuthRequestByCode exchanger.Storage tokenReq.Code s2).val.1, some client,
            (AuthRequestByCode exchanger.Storage tokenReq.Code s2).val.2),
          (AuthRequestByCode exchanger.Storage tokenReq.Code s2).st,
          [.GetClientByClientID tokenReq.ClientID,
            .AuthorizeClientIDSecret tokenReq.ClientID tokenReq.ClientSecret,
            .StorageAuthRequestByCode tokenReq.Code]⟩) := by
  have h1 : AuthMethodPost ≠ AuthMethodPrivateKeyJWT := by decide
  have h2 : AuthMethodPost ≠ AuthMethodNone := by decide
  constructor
  · intro err hsecret
    unfold AuthorizeCodeClient
    simp only [htype, if_false, hclient, hmethod, h1, h2, hsup, Bool.not_true, Bool.and_false,
      Bool.false_eq_true, hsecret]
  · intro hsecret
    unfold AuthorizeCodeClient
    simp only [htype, if_false, hclient, hmethod, h1, h2, hsup, Bool.not_true, Bool.and_false,
      Bool.false_eq_true, hsecret, AuthRequestByCode_trace]

/-- C15, at the example deployment: client `c2` presents a wrong secret. -/
theorem AuthorizeCodeClient_post_secret_witness :
    AuthorizeCodeClient demoPackage
        { Code := "code2", RedirectURI := "https://a/cb", ClientID := "c2",
          ClientSecret := "guess" }
        demoExchanger demoInit =
      ⟨.ret (none, none,
          some (.oidc .InvalidClient "invalid client_id / client_secret" none)),
        demoInit, [.GetClientByClientID "c2", .AuthorizeClientIDSecret "c2" "guess"]⟩ :=
  (AuthorizeCodeClient_post_secret demoPackage
    { Code := "code2", RedirectURI := "https://a/cb", ClientID := "c2",
      ClientSecret := "guess" }
    demoExchanger demoInit demoInit demoInit ⟨"c2", AuthMethodPost, [GrantTypeCode]⟩
    (by decide) (by rfl) (by rfl) (by rfl)).1
    (.oidc .InvalidClient "invalid client_id / client_secret" none) (by rfl)

/-- C16: for a request without the JWT-bearer assertion type whose client id
resolves to a client registered with `client_secret_post`, on an exchanger that
does not support it, `AuthorizeCodeClient` fails with `InvalidClient` described
"auth_method post not supported"; the client lookup is its only call (the secret
is not verified and the code is not looked up). -/
theorem AuthorizeCodeClient_post_not_supported (pkg : Package σ)
    (tokenReq : AccessTokenRequest) (exchanger : Exchanger σ) (s s1 : σ) (client : Client)
    (htype : tokenReq.ClientAssertionType ≠ ClientAssertionTypeJWTAssertion)
    (hclient : exchanger.Storage.GetClientByClientID tokenReq.ClientID s = (.ok client, s1))
    (hmethod : client.AuthMethod = AuthMethodPost)
    (hsup : exchanger.AuthMethodPostSupported = false) :
    AuthorizeCodeClient pkg tokenReq exchanger s =
      ⟨.ret (none, none, some (.oidc .InvalidClient "auth_method post not supported" none)),
        s1, [.GetClientByClientID tokenReq.ClientID]⟩ := by
  have h1 : AuthMethodPost ≠ AuthMethodPrivateKeyJWT := by decide
  have h2 : AuthMethodPost ≠ AuthMethodNone := by decide
  unfold AuthorizeCodeClient
  simp only [htype, if_false, hclient, hmethod, h1, h2, hsup, Bool.not_false, Bool.and_true,
    decide_True, if_true]
  rfl

/-- C16, at the example deployment with an exchanger that does not support
`client_secret_post`: client `c2` presents its secret. -/
theorem AuthorizeCodeClient_post_not_supported_witness :
    AuthorizeCodeClient demoPackage
        { Code := "code2", RedirectURI := "https://a/cb", ClientID := "c2",
          ClientSecret := "secret" }
        { demoExchanger with AuthMethodPostSupported := false } demoInit =
      ⟨.ret (none, none, some (.oidc .InvalidClient "auth_method post not supported" none)),
        demoInit, [.GetClientByClientID "c2"]⟩ :=
  AuthorizeCodeClient_post_not_supported demoPackage
    { Code := "code2", RedirectURI := "https://a/cb", ClientID := "c2",
      ClientSecret := "secret" }
    { demoExchanger with AuthMethodPostSupported := false } demoInit demoInit
    ⟨"c2", AuthMethodPost, [GrantTypeCode]⟩ (by decide) (by rfl) (by rfl) (by rfl)

/-- C18: for a request without the JWT-bearer assertion type, when the Storage
lookup of the client fails with an error, `AuthorizeCodeClient` returns no auth
request, no client and `InvalidClient` with that error as parent; the client
lookup is its only call (no secret is verified and the code is not looked up). -/
theorem AuthorizeCodeClient_client_lookup_fails (pkg : Package σ)
    (tokenReq : AccessTokenRequest) (exchanger : Exchanger σ) (s s1 : σ) (err : GoError)
    (htype : tokenReq.ClientAssertionType ≠ ClientAssertionTypeJWTAssertion)
    (hclient : exchanger.Storage.GetClientByClientID tokenReq.ClientID s =
      (.error err, s1)) :
    AuthorizeCodeClient pkg tokenReq exchanger s =
        ⟨.ret (none, none, some (.oidc .InvalidClient "" (some err))), s1,
          [.GetClientByClientID tokenReq.ClientID]⟩ ∧
      (GoError.oidc .InvalidClient "" (some err)).errorType = some .InvalidClient ∧
      (GoError.oidc .InvalidClient "" (some err)).parent = some err := by
  refine ⟨?_, rfl, rfl⟩
  unfold AuthorizeCodeClient
  simp only [htype, if_false, hclient]
  rfl

/-- C18, at the example deployment: the client id of the request is not registered. -/
theorem AuthorizeCodeClient_client_lookup_fails_witness :
    AuthorizeCodeClient demoPackage
        { Code := "code2", RedirectURI := "https://a/cb", ClientID := "c9",
          ClientSecret := "secret" }
        demoExchanger demoInit =
      ⟨.ret (none, none,
          some (.oidc .InvalidClient "" (some (.external "client not found")))),
        demoInit, [.GetClientByClientID "c9"]⟩ :=
  (AuthorizeCodeClient_client_lookup_fails demoPackage
    { Code := "code2", RedirectURI := "https://a/cb", ClientID := "c9",
      ClientSecret := "secret" }
    demoExchanger demoInit demoInit (.external "client not found")
    (by decide) (by rfl)).1

/-! ## The errors of the grant validator -/

/-- C17, refuted as stated. At the example deployment, the code of client `c2`
presented with the assertion of client `c3` is refused with `InvalidGrant` and no
description; a wrong secret is refused with the very error the secret verifier
returned, not with an error that has it as parent; and when the secret verifier
reports an error outside the taxonomy, that error is what
`ValidateAccessTokenRequest` returns. -/
theorem ValidateAccessTokenRequest_error_not_always_wrapped :
    ((ValidateAccessTokenRequest demoPackage
          { Code := "code2", RedirectURI := "https://a/cb", ClientAssertion := "jwt-c3",
            ClientAssertionType := ClientAssertionTypeJWTAssertion }
          demoExchanger demoInit).val =
        .ret (none, none, some (.oidc .InvalidGrant "" none)) ∧
      (GoError.oidc .InvalidGrant "" none).description = "") ∧
    ((demoPackage.AuthorizeClientIDSecret "c2" "guess" demoStorage demoInit).1 =
        some (.oidc .InvalidClient "invalid client_id / client_secret" none) ∧
      (ValidateAccessTokenRequest demoPackage
          { Code := "code2", RedirectURI := "https://a/cb", ClientID := "c2",
            ClientSecret := "guess" }
          demoExchanger demoInit).val =
        .ret (none, none,
          some (.oidc .InvalidClient "invalid client_id / client_secret" none))) ∧
    ((demoPackageDown.AuthorizeClientIDSecret "c2" "secret" demoStorage demoInit).1 =
        some (.external "storage unavailable") ∧
      (ValidateAccessTokenRequest demoPackageDown
          { Code := "code2", RedirectURI := "https://a/cb", ClientID := "c2",
            ClientSecret := "secret" }
          demoExchanger demoInit).val =
        .ret (none, none, some (.external "storage unavailable")) ∧
      (GoError.external "storage unavailable").errorType = none) :=
  ⟨⟨by rfl, by rfl⟩, ⟨by rfl, by rfl⟩, ⟨by rfl, by rfl, by rfl⟩⟩

/-- C17, as amended: an error returned by `ValidateAccessTokenRequest` is one of
these. It is created in `token_code.go`: `InvalidClient` described "auth_method
private_key_jwt not supported", "private_key_jwt not allowed for this client" or
"auth_method post not supported", `InvalidGrant` with no description (client id
mismatch), `UnauthorizedClient` described "client missing grant type
authorization_code", `InvalidGrant` described "redirect_uri does not correspond".
Or it wraps the error of a Storage lookup as its parent: `InvalidClient` with no
description for the client lookup, `InvalidGrant` described "invalid code" for the
code lookup. Or it is the error of `AuthorizePrivateJWTKey`, of
`AuthorizeClientIDSecret` or of `AuthorizeCodeChallenge`, returned as it is. -/
theorem ValidateAccessTokenRequest_error_origin (pkg : Package σ)
    (tokenReq : AccessTokenRequest) (exchanger : Exchanger σ) (s : σ)
    (ra : Option AuthRequest) (rc : Option Client) (e : GoError)
    (h : (ValidateAccessTokenRequest pkg tokenReq exchanger s).val = .ret (ra, rc, some e)) :
    (e = .oidc .InvalidClient "auth_method private_key_jwt not supported" none ∨
      e = .oidc .InvalidClient "private_key_jwt not allowed for this client" none ∨
      e = .oidc .InvalidClient "auth_method post not supported" none ∨
      e = .oidc .InvalidGrant "" none ∨
      e = .oidc .UnauthorizedClient "client missing grant type authorization_code" none ∨
      e = .oidc .InvalidGrant "redirect_uri does not correspond" none) ∨
    ((∃ e0 s0 s1,
        exchanger.Storage.GetClientByClientID tokenReq.ClientID s0 = (.error e0, s1) ∧
          e = .oidc .InvalidClient "" (some e0)) ∨
      (∃ e0 s0 s1,
        exchanger.Storage.AuthRequestByCode tokenReq.Code s0 = (.error e0, s1) ∧
          e = .oidc .InvalidGrant "invalid code" (some e0))) ∨
    ((∃ s0 s1, pkg.AuthorizePrivateJWTKey tokenReq.ClientAssertion exchanger s0 = (.error e, s1)) ∨
      (∃ s0 s1, pkg.AuthorizeClientIDSecret tokenReq.ClientID tokenReq.ClientSecret exchanger.Storage s0 =
        (some e, s1)) ∨
      (∃ challenge, pkg.AuthorizeCodeChallenge tokenReq challenge = some e)) := by
  rcases AuthorizeCodeClient_val pkg tokenReq exchanger s with ⟨a, c, hv⟩ | ⟨xa, xc, e1, hv⟩
  · rw [ValidateAccessTokenRequest_of_ok pkg tokenReq exchanger s a c hv] at h
    split_ifs at h
    · simp only [Result.ret.injEq, Prod.mk.injEq, Option.some.injEq] at h
      exact Or.inl (Or.inr (Or.inr (Or.inr (Or.inl h.2.2.symm))))
    · simp only [Result.ret.injEq, Prod.mk.injEq, Option.some.injEq] at h
      exact Or.inl (Or.inr (Or.inr (Or.inr (Or.inr (Or.inl h.2.2.symm)))))
    · simp only [Result.ret.injEq, Prod.mk.injEq, Option.some.injEq] at h
      exact Or.inl (Or.inr (Or.inr (Or.inr (Or.inr (Or.inr h.2.2.symm)))))
    · simp at h
  · rw [ValidateAccessTokenRequest_of_err pkg tokenReq exchanger s xa xc e1 hv] at h
    simp only [Result.ret.injEq, Prod.mk.injEq, Option.some.injEq] at h
    obtain ⟨-, -, rfl⟩ := h
    rcases AuthorizeCodeClient_error_origin pkg tokenReq exchanger s xa xc e1 hv with
      h1 | h1 | h1 | h1 | h1 | h1 | h1 | h1
    · exact Or.inl (Or.inl h1)
    · exact Or.inl (Or.inr (Or.inl h1))
    · exact Or.inl (Or.inr (Or.inr (Or.inl h1)))
    · exact Or.inr (Or.inl (Or.inl h1))
    · exact Or.inr (Or.inl (Or.inr h1))
    · exact Or.inr (Or.inr (Or.inl h1))
    · exact Or.inr (Or.inr (Or.inr (Or.inl h1)))
    · exact Or.inr (Or.inr (Or.inr (Or.inr h1)))

/-- C17 as amended, at the example deployment: the error of a request with a
wrong secret is one of the errors listed, here the one the secret verifier
returned. -/
theorem ValidateAccessTokenRequest_error_origin_witness :
    ((GoError.oidc .InvalidClient "invalid client_id / client_secret" none) =
          .oidc .InvalidClient "auth_method private_key_jwt not supported" none ∨
        (GoError.oidc .InvalidClient "invalid client_id / client_secret" none) =
          .oidc .InvalidClient "private_key_jwt not allowed for this client" none ∨
        (GoError.oidc .InvalidClient "invalid client_id / client_secret" none) =
          .oidc .InvalidClient "auth_method post not supported" none ∨
        (GoError.oidc .InvalidClient "invalid client_id / client_secret" none) =
          .oidc .InvalidGrant "" none ∨
        (GoError.oidc .InvalidClient "invalid client_id / client_secret" none) =
          .oidc .UnauthorizedClient "client missing grant type authorization_code" none ∨
        (GoError.oidc .InvalidClient "invalid client_id / client_secret" none) =
          .oidc .InvalidGrant "redirect_uri does not correspond" none) ∨
      ((∃ e0 s0 s1,
          demoExchanger.Storage.GetClientByClientID "c2" s0 = (.error e0, s1) ∧
            (GoError.oidc .InvalidClient "invalid client_id / client_secret" none) =
              .oidc .InvalidClient "" (some e0)) ∨
        (∃ e0 s0 s1,
          demoExchanger.Storage.AuthRequestByCode "code2" s0 = (.error e0, s1) ∧
            (GoError.oidc .InvalidClient "invalid client_id / client_secret" none) =
              .oidc .InvalidGrant "invalid code" (some e0))) ∨
      ((∃ s0 s1, demoPackage.AuthorizePrivateJWTKey "" demoExchanger s0 =
          (.error (.oidc .InvalidClient "invalid client_id / client_secret" none), s1)) ∨
        (∃ s0 s1, demoPackage.AuthorizeClientIDSecret "c2" "guess" demoExchanger.Storage s0 =
          (some (.oidc .InvalidClient "invalid client_id / client_secret" none), s1)) ∨
        (∃ challenge,
          demoPackage.AuthorizeCodeChallenge
              { Code := "code2", RedirectURI := "https://a/cb", ClientID := "c2",
                ClientSecret := "guess" }
              challenge =
            some (.oidc .InvalidClient "invalid client_id / client_secret" none))) :=
  ValidateAccessTokenRequest_error_origin demoPackage
    { Code := "code2", RedirectURI := "https://a/cb", ClientID := "c2",
      ClientSecret := "guess" }
    demoExchanger demoInit none none
    (.oidc .InvalidClient "invalid client_id / client_secret" none) (by rfl)

/-- C20: whenever `ValidateAccessTokenRequest` returns an error, the auth request
and the client it returns are nil, on every path; in particular, whatever auth
request and client `AuthorizeCodeClient` returns together with an error,
`ValidateAccessTokenRequest` returns that error with a nil auth request and a nil
client. -/
theorem ValidateAccessTokenRequest_error_returns_nil (pkg : Package σ)
    (tokenReq : AccessTokenRequest) (exchanger : Exchanger σ) (s : σ) :
    (∀ (ra : Option AuthRequest) (rc : Option Client) (e : GoError),
      (ValidateAccessTokenRequest pkg tokenReq exchanger s).val = .ret (ra, rc, some e) →
        ra = none ∧ rc = none) ∧
    (∀ (ra : Option AuthRequest) (rc : Option Client) (e : GoError),
      (AuthorizeCodeClient pkg tokenReq exchanger s).val = .ret (ra, rc, some e) →
        (ValidateAccessTokenRequest pkg tokenReq exchanger s).val =
          .ret (none, none, some e)) := by
  constructor
  · intro ra rc e h
    rcases ValidateAccessTokenRequest_val pkg tokenReq exchanger s with ⟨a, c, hv⟩ | ⟨e1, hv⟩
    · rw [hv] at h
      simp at h
    · rw [hv] at h
      simp only [Result.ret.injEq, Prod.mk.injEq] at h
      exact ⟨h.1.symm, h.2.1.symm⟩
  · intro ra rc e h
    exact ValidateAccessTokenRequest_of_err pkg tokenReq exchanger s ra rc e h

/-- C20, at the example deployment: on the `none` path with a failed PKCE check
`AuthorizeCodeClient` returns the auth request and the client with the error, and
`ValidateAccessTokenRequest` returns the error alone. -/
theorem ValidateAccessTokenRequest_error_returns_nil_witness :
    (AuthorizeCodeClient demoPackage
        { Code := "code1", RedirectURI := "https://app/cb", ClientID := "c1",
          CodeVerifier := "w" }
        demoExchanger demoInit).val =
      .ret (some ⟨"ar1", "c1", "https://app/cb", some ⟨"S256(v)", "S256"⟩⟩,
        some ⟨"c1", AuthMethodNone, [GrantTypeCode]⟩,
        some (.oidc .InvalidGrant "invalid code challenge" none)) ∧
    (ValidateAccessTokenRequest demoPackage
        { Code := "code1", RedirectURI := "https://app/cb", ClientID := "c1",
          CodeVerifier := "w" }
        demoExchanger demoInit).val =
      .ret (none, none, some (.oidc .InvalidGrant "invalid code challenge" none)) :=
  ⟨by rfl,
    (ValidateAccessTokenRequest_error_returns_nil demoPackage
      { Code := "code1", RedirectURI := "https://app/cb", ClientID := "c1",
        CodeVerifier := "w" }
      demoExchanger demoInit).2 _ _ _ (by rfl)⟩

/-! ## Replay of a code -/

/-- The example deployment keeps the lifecycle of the grant of `code2`: the issuer
removes the code from the redeemable ones, no other collaborator adds it, and a
code that is not redeemable is not found. -/
theorem demo_grantLifecycle :
    GrantLifecycle demoPackage demoExchanger "code2" (fun st => "code2" ∉ st) where
  issued := by
    intro ra rc s0 s1 resp h
    simp only [demoPackage, Prod.mk.injEq] at h
    rw [← h.2]
    simp [List.mem_filter]
  lookupFails := by
    intro s0 h0
    have hc : s0.contains "code2" = false := by simpa using h0
    exact ⟨.external "grant not found", s0, by
      simp only [demoExchanger, demoStorage, hc, Bool.false_eq_true, if_false]⟩
  clientLookup := by
    intro id s0 h0
    simp only [demoExchanger, demoStorage]
    split <;> exact h0
  verifier := by
    intro a s0 h0
    simp only [demoPackage, demoExchanger, demoStorage]
    split
    · rename_i issuer _
      cases List.lookup (String.mk issuer) demoClients with
      | none => exact h0
      | some client =>
        simp only
        split <;> exact h0
    · exact h0
  secret := by
    intro id sec s0 h0
    simp only [demoPackage]
    split <;> exact h0

/-- In the example deployment what the client lookup, the assertion verifier and
the secret verifier answer does not depend on the redeemable codes. -/
theorem demo_registrationFixed : RegistrationFixed demoPackage demoExchanger where
  clientLookup := by
    intro id s0 s1
    simp only [demoExchanger, demoStorage]
    cases List.lookup id demoClients <;> rfl
  verifier := by
    intro a s0 s1
    simp only [demoPackage, demoExchanger, demoStorage]
    split
    · rename_i issuer _
      cases List.lookup (String.mk issuer) demoClients with
      | none => rfl
      | some client =>
        simp only
        split <;> rfl
    · rfl
  secret := by
    intro id sec s0 s1
    simp only [demoPackage]
    split <;> rfl

/-- C19, refuted as stated: at the example deployment, whose issuer consumes the
code, client `c2` redeems `code2` and a token response is written; a second
exchange of `code2`, presented with a wrong client secret, issues no token but is
refused with `InvalidClient`, not with `InvalidGrant` described "invalid code":
the secret is verified before the code is looked up. -/
theorem CodeExchange_replay_other_error :
    CodeExchange demoPackage
        ⟨[], [("code", "code2"), ("redirect_uri", "https://a/cb"), ("client_id", "c2"),
          ("client_secret", "secret")]⟩
        demoExchanger demoInit =
      ⟨.returned, ["code1", "code3", "code4", "code5"],
        [.ValidateAccessTokenRequest
            { Code := "code2", RedirectURI := "https://a/cb", ClientID := "c2",
              ClientSecret := "secret" },
          .GetClientByClientID "c2", .AuthorizeClientIDSecret "c2" "secret",
          .StorageAuthRequestByCode "code2",
          .CreateTokenResponse (some ⟨"ar2", "c2", "https://a/cb", none⟩)
            (some ⟨"c2", AuthMethodPost, [GrantTypeCode]⟩) true "code2" "",
          .LogPrintf ⟨"at-code2", "Bearer", "", 299, "idt-code2", ""⟩,
          .MarshalJSON ⟨"at-code2", "Bearer", "", 299, "idt-code2", ""⟩]⟩ ∧
    CodeExchange demoPackage
        ⟨[], [("code", "code2"), ("redirect_uri", "https://a/cb"), ("client_id", "c2"),
          ("client_secret", "guess")]⟩
        demoExchanger
        (CodeExchange demoPackage
          ⟨[], [("code", "code2"), ("redirect_uri", "https://a/cb"), ("client_id", "c2"),
            ("client_secret", "secret")]⟩
          demoExchanger demoInit).st =
      ⟨.returned, ["code1", "code3", "code4", "code5"],
        [.ValidateAccessTokenRequest
            { Code := "code2", RedirectURI := "https://a/cb", ClientID := "c2",
              ClientSecret := "guess" },
          .GetClientByClientID "c2", .AuthorizeClientIDSecret "c2" "guess",
          .RequestError
            (.oidc .InvalidClient "invalid client_id / client_secret" none)]⟩ :=
  ⟨by rfl, by rfl⟩

/-- C19, as amended, for exchanges run one after the other, under the lifecycle
of the grant that the Storage and the issuer keep. After a first `CodeExchange`
that wrote a token response for a code, a second `CodeExchange` of a request with
that code, run from the state the first left, calls `CreateTokenResponse` never
and writes no token response; it ends by writing an error. That error is
`InvalidGrant` described "invalid code" whenever the second run gets as far as
the code lookup, and so it is when the second request is the first one again and
what the client lookup, the assertion verifier and the secret verifier answer
does not depend on the state. -/
theorem CodeExchange_replay_rejected (pkg : Package σ) (exchanger : Exchanger σ)
    (r1 r2 : HttpRequest) (s : σ) (t1 t2 : AccessTokenRequest) (resp : TokenResponse)
    (Consumed : σ → Prop)
    (hfirst : Event.MarshalJSON resp ∈ (CodeExchange pkg r1 exchanger s).trace)
    (hparse1 : ParseAccessTokenRequest pkg r1 exchanger.Decoder = (some t1, none))
    (hparse2 : ParseAccessTokenRequest pkg r2 exchanger.Decoder = (some t2, none))
    (hsame : t2.Code = t1.Code)
    (hlife : GrantLifecycle pkg exchanger t1.Code Consumed) :
    (∀ ev ∈ (CodeExchange pkg r2 exchanger (CodeExchange pkg r1 exchanger s).st).trace,
      ev.isCreateTokenResponse = false ∧ ev.isMarshalJSON = false) ∧
    ∃ err,
      (CodeExchange pkg r2 exchanger (CodeExchange pkg r1 exchanger s).st).trace.getLast? =
          some (.RequestError err) ∧
        (Event.StorageAuthRequestByCode t2.Code ∈
            (CodeExchange pkg r2 exchanger (CodeExchange pkg r1 exchanger s).st).trace →
          ∃ e, err = .oidc .InvalidGrant "invalid code" (some e)) ∧
        (RegistrationFixed pkg exchanger → t2 = t1 →
          ∃ e, err = .oidc .InvalidGrant "invalid code" (some e)) := by
  obtain ⟨hcode1, a, c, hv1, hc1⟩ := CodeExchange_issued pkg r1 exchanger s t1 resp hparse1 hfirst
  have hcons : Consumed (CodeExchange pkg r1 exchanger s).st := hlife.issued _ _ _ _ _ hc1
  have hcode2 : t2.Code ≠ "" := by rw [hsame]; exact hcode1
  obtain ⟨ra, rc, err, hval, hcond⟩ :=
    AuthorizeCodeClient_of_consumed pkg t2 exchanger Consumed
      (by rw [hsame]; exact hlife.lookupFails) hlife.clientLookup hlife.verifier hlife.secret
      (CodeExchange pkg r1 exchanger s).st hcons
  have hv := ValidateAccessTokenRequest_of_err pkg t2 exchanger
    (CodeExchange pkg r1 exchanger s).st ra rc err hval
  rw [CodeExchange_of_validate_error pkg r2 exchanger _ t2 none none err hparse2 hcode2 hv]
  refine ⟨?_, err, ?_, fun h => ?_, fun hfix ht => ?_⟩
  · intro ev hev
    simp only [List.mem_cons, List.mem_append, List.mem_singleton, List.not_mem_nil,
      or_false] at hev
    rcases hev with h | h | h
    · subst h
      exact ⟨rfl, rfl⟩
    · rw [ValidateAccessTokenRequest_trace] at h
      have := AuthorizeCodeClient_trace pkg t2 exchanger _ ev h
      exact ⟨this.1, this.2.1⟩
    · subst h
      exact ⟨rfl, rfl⟩
  · rw [← List.cons_append, List.getLast?_concat]
  · simp only [List.mem_cons, List.mem_append, List.mem_singleton, List.not_mem_nil,
      or_false, reduceCtorEq, false_or] at h
    rw [ValidateAccessTokenRequest_trace] at h
    exact hcond h
  · subst ht
    exact hcond (AuthorizeCodeClient_reaches_lookup pkg t2 exchanger hfix s _ a c
      (AuthorizeCodeClient_of_validated pkg t2 exchanger s a c hv1))

/-- C19 as amended, at the example deployment: client `c2` redeems `code2`, a
token response is written, and the same request run again issues no token and is
refused with `InvalidGrant` described "invalid code". -/
theorem CodeExchange_replay_rejected_witness :
    (∀ ev ∈ (CodeExchange demoPackage
          ⟨[], [("code", "code2"), ("redirect_uri", "https://a/cb"), ("client_id", "c2"),
            ("client_secret", "secret")]⟩
          demoExchanger
          (CodeExchange demoPackage
            ⟨[], [("code", "code2"), ("redirect_uri", "https://a/cb"), ("client_id", "c2"),
              ("client_secret", "secret")]⟩
            demoExchanger demoInit).st).trace,
        ev.isCreateTokenResponse = false ∧ ev.isMarshalJSON = false) ∧
      ∃ e,
        (CodeExchange demoPackage
            ⟨[], [("code", "code2"), ("redirect_uri", "https://a/cb"), ("client_id", "c2"),
              ("client_secret", "secret")]⟩
            demoExchanger
            (CodeExchange demoPackage
              ⟨[], [("code", "code2"), ("redirect_uri", "https://a/cb"),
                ("client_id", "c2"), ("client_secret", "secret")]⟩
              demoExchanger demoInit).st).trace.getLast? =
          some (.RequestError (.oidc .InvalidGrant "invalid code" (some e))) := by
  obtain ⟨hno, err, hlast, -, hfixed⟩ :=
    CodeExchange_replay_rejected demoPackage demoExchanger
      ⟨[], [("code", "code2"), ("redirect_uri", "https://a/cb"), ("client_id", "c2"),
        ("client_secret", "secret")]⟩
      ⟨[], [("code", "code2"), ("redirect_uri", "https://a/cb"), ("client_id", "c2"),
        ("client_secret", "secret")]⟩
      demoInit
      { Code := "code2", RedirectURI := "https://a/cb", ClientID := "c2",
        ClientSecret := "secret" }
      { Code := "code2", RedirectURI := "https://a/cb", ClientID := "c2",
        ClientSecret := "secret" }
      ⟨"at-code2", "Bearer", "", 299, "idt-code2", ""⟩
      (fun st => "code2" ∉ st)
      (List.mem_of_getLast?_eq_some (by rfl)) (by rfl) (by rfl) rfl demo_grantLifecycle
  obtain ⟨e, he⟩ := hfixed demo_registrationFixed rfl
  subst he
  exact ⟨hno, e, hlast⟩

end op
